import Mathlib

set_option linter.dupNamespace false
set_option maxRecDepth 200000

/-!
# Verification of the frkhash proof-of-work consensus engine

A shallow embedding of the `consensus/frkhash` package of go-expanse.
Bytes are modelled as `Nat` values below 256, byte buffers as `List Nat`,
and 64-bit machine words as `Nat` reduced modulo `2 ^ 64` where overflow
matters.  The Keccak permutation and the legacy-padded Keccak-256 /
Keccak-512 sponges (go-ethereum's `crypto.Keccak256` / `crypto.Keccak512`)
are embedded in full so that `frankomoto` can be evaluated on the
concrete test vector shipped with the repository.
-/

namespace Frkhash

/-- Rotate a 64-bit word left by `n` bits (`n < 64`); the word is a `Nat`
reduced modulo `2 ^ 64`. -/
def rotl64 (x n : Nat) : Nat :=
  ((x <<< n) ||| (x >>> (64 - n))) % (2 ^ 64)

/-- The 24 round constants of the Keccak-f[1600] permutation. -/
def keccakRC : List Nat :=
  [1, 32898, 9223372036854808714, 9223372039002292224, 32907, 2147483649,
   9223372039002292353, 9223372036854808585, 138, 136, 2147516425,
   2147483658, 2147516555, 9223372036854775947, 9223372036854808713,
   9223372036854808579, 9223372036854808578, 9223372036854775936, 32778,
   9223372039002259466, 9223372039002292353, 9223372036854808704,
   2147483649, 9223372039002292232]

/-- Source index of the combined rho-pi step: output lane `j` is input lane
`piSrc[j]` rotated by `piRot[j]`.  Lanes are stored flat, index `x + 5*y`. -/
def piSrc : List Nat :=
  [0, 6, 12, 18, 24, 3, 9, 10, 16, 22, 1, 7, 13, 19, 20, 4, 5, 11, 17, 23,
   2, 8, 14, 15, 21]

/-- Rotation amounts of the combined rho-pi step, matching `piSrc`. -/
def piRot : List Nat :=
  [0, 44, 43, 21, 14, 28, 20, 3, 45, 61, 1, 6, 25, 8, 18, 27, 36, 10, 15,
   56, 62, 55, 39, 41, 2]

/-- Theta step of Keccak-f[1600] on a flat 25-lane state. -/
def theta (A : List Nat) : List Nat :=
  let C := (List.range 5).map fun x =>
    A.getD x 0 ^^^ A.getD (x + 5) 0 ^^^ A.getD (x + 10) 0 ^^^
      A.getD (x + 15) 0 ^^^ A.getD (x + 20) 0
  let D := (List.range 5).map fun x =>
    C.getD ((x + 4) % 5) 0 ^^^ rotl64 (C.getD ((x + 1) % 5) 0) 1
  (List.range 25).map fun i => A.getD i 0 ^^^ D.getD (i % 5) 0

/-- Combined rho (rotation) and pi (lane permutation) steps. -/
def rhoPi (A : List Nat) : List Nat :=
  (List.range 25).map fun j => rotl64 (A.getD (piSrc.getD j 0) 0) (piRot.getD j 0)

/-- Chi step: each lane is XORed with the AND of the complement of its
right neighbour and its second right neighbour within the same row. -/
def chi (A : List Nat) : List Nat :=
  (List.range 25).map fun i =>
    let x := i % 5
    let y := i - x
    A.getD i 0 ^^^
      (((2 ^ 64 - 1) ^^^ A.getD ((x + 1) % 5 + y) 0) &&& A.getD ((x + 2) % 5 + y) 0)

/-- Iota step: XOR the round constant into lane 0. -/
def iotaRound (rc : Nat) (A : List Nat) : List Nat :=
  match A with
  | [] => []
  | a :: rest => (a ^^^ rc) :: rest

/-- One round of Keccak-f[1600]. -/
def keccakRound (rc : Nat) (st : List Nat) : List Nat :=
  iotaRound rc (chi (rhoPi (theta st)))

/-- The full 24-round Keccak-f[1600] permutation. -/
def keccakP (st : List Nat) : List Nat :=
  keccakRC.foldl (fun s rc => keccakRound rc s) st

/-- Multi-rate padding with domain byte `0x01` — legacy Keccak padding as
used by go-ethereum's `crypto.Keccak256`/`crypto.Keccak512` (not the NIST
SHA-3 domain byte). -/
def padKeccak (rate : Nat) (msg : List Nat) : List Nat :=
  let padLen := rate - msg.length % rate
  if padLen = 1 then msg ++ [0x81]
  else msg ++ [0x01] ++ List.replicate (padLen - 2) 0 ++ [0x80]

/-- Split a padded message into `rate`-byte blocks (fuel-indexed structural
recursion; the fuel `l.length` suffices for every positive rate). -/
def toBlocksAux : Nat → Nat → List Nat → List (List Nat)
  | 0, _, _ => []
  | _ + 1, _, [] => []
  | fuel + 1, rate, l => l.take rate :: toBlocksAux fuel rate (l.drop rate)

/-- Split a list into `rate`-byte blocks. -/
def toBlocks (rate : Nat) (l : List Nat) : List (List Nat) :=
  toBlocksAux l.length rate l

/-- Load lane `i` of a block: 8 bytes, little endian. -/
def laneOfBytes (block : List Nat) (i : Nat) : Nat :=
  (List.range 8).foldr (fun k acc => acc * 256 + block.getD (8 * i + k) 0) 0

/-- XOR one `rate`-byte block into the first `laneCount` lanes of the state. -/
def absorbBlock (st : List Nat) (block : List Nat) (laneCount : Nat) : List Nat :=
  (List.range 25).map fun i =>
    if i < laneCount then st.getD i 0 ^^^ laneOfBytes block i else st.getD i 0

/-- Absorb a list of blocks into the sponge state. -/
def absorb (rate : Nat) (st : List Nat) (blocks : List (List Nat)) : List Nat :=
  blocks.foldl (fun s b => keccakP (absorbBlock s b (rate / 8))) st

/-- The 200 bytes of the sponge state, lanes serialized little endian. -/
def stateBytes (st : List Nat) : List Nat :=
  (List.range 200).map fun i => (st.getD (i / 8) 0 >>> (8 * (i % 8))) % 256

/-- Squeeze `outLen` bytes out of the sponge state. -/
def squeezeAux : Nat → Nat → Nat → List Nat → List Nat
  | 0, _, _, _ => []
  | fuel + 1, rate, outLen, st =>
    if outLen ≤ rate then (stateBytes st).take outLen
    else (stateBytes st).take rate ++ squeezeAux fuel rate (outLen - rate) (keccakP st)

/-- The legacy Keccak sponge with the given rate (in bytes) and output length. -/
def keccakSponge (rate outLen : Nat) (msg : List Nat) : List Nat :=
  squeezeAux (outLen + 1) rate outLen
    (absorb rate (List.replicate 25 0) (toBlocks rate (padKeccak rate msg)))

/-- go-ethereum `crypto.Keccak512`: rate 72 bytes, 64-byte output. -/
def Keccak512 (msg : List Nat) : List Nat := keccakSponge 72 64 msg

/-- go-ethereum `crypto.Keccak256`: rate 136 bytes, 32-byte output. -/
def Keccak256 (msg : List Nat) : List Nat := keccakSponge 136 32 msg

/-- Go's `copy(dst, src)`: copies `min dst.length src.length` bytes of
`src` over the prefix of `dst`, leaving the rest of `dst` unchanged. -/
def goCopy (dst src : List Nat) : List Nat :=
  let n := min dst.length src.length
  src.take n ++ dst.drop n

/-- The 8-byte little-endian encoding of a 64-bit value. -/
def le64 (v : Nat) : List Nat :=
  (List.range 8).map fun k => (v >>> (8 * k)) % 256

/-- Embeds `binary.LittleEndian.PutUint64(buf[off:], v)`: overwrite the 8
bytes of `buf` at offset `off` with the little-endian encoding of `v`. -/
def putUint64LE (buf : List Nat) (off : Nat) (v : Nat) : List Nat :=
  buf.take off ++ le64 v ++ buf.drop (off + 8)

/-- Embeds `frankomoto` from the algorithm source, line by line: allocate a
40-byte buffer, `copy` the hash into it, write the little-endian nonce at
offset 32, take `crypto.Keccak512` of it, and return the last 32 bytes of
that digest paired with `crypto.Keccak256` of the full 64-byte digest. -/
def frankomoto (hash : List Nat) (nonce : Nat) : List Nat × List Nat :=
  let buf := goCopy (List.replicate 40 0) hash
  let buf2 := putUint64LE buf 32 nonce
  let digest := Keccak512 buf2
  let d1 := digest.drop 32
  (d1, Keccak256 digest)

/-- Width of the mix buffer in bytes (`mixBytes` in the algorithm source). -/
def mixBytes : Nat := 128

/-- Hash length in bytes (`hashBytes` in the algorithm source). -/
def hashBytes : Nat := 64

/-- Number of accesses in the hashimoto loop (`loopAccesses` in the
algorithm source). -/
def loopAccesses : Nat := 64

/-- Blocks per epoch (`epochLength` in the algorithm source). -/
def epochLength : Nat := 30000

/-- FNV-style per-word combine on 32-bit words. -/
def fnv (a b : Nat) : Nat := ((a * 16777619) ^^^ b) % 2 ^ 32

/-- Interpret a byte buffer as little-endian 32-bit words. -/
def words32 (l : List Nat) : List Nat :=
  (List.range (l.length / 4)).map fun i =>
    l.getD (4 * i) 0 + 256 * l.getD (4 * i + 1) 0 +
      65536 * l.getD (4 * i + 2) 0 + 16777216 * l.getD (4 * i + 3) 0

/-- Serialize 32-bit words back to little-endian bytes. -/
def bytesOfWords32 (ws : List Nat) : List Nat :=
  (ws.map fun w => [w % 256, w >>> 8 % 256, w >>> 16 % 256, w >>> 24 % 256]).flatten

/-- One round of the memory-hard mixing loop the spec describes: derive a
pseudo-random row index from the current mix state and the
lookup-structure size, fetch the row pair via `lookup`, and FNV-combine it
word by word into the mix buffer. -/
def mixRound (rows : Nat) (lookup : Nat → List Nat) (seedHead : Nat)
    (mix : List Nat) (i : Nat) : List Nat :=
  let p := fnv ((i ^^^ seedHead) % 2 ^ 32) (mix.getD (i % (mixBytes / 4)) 0) % rows
  let newData := words32 (lookup (2 * p) ++ lookup (2 * p + 1))
  (List.range (mixBytes / 4)).map fun j => fnv (mix.getD j 0) (newData.getD j 0)

/-- The memory-hard mixing algorithm exactly as the spec describes `mix`
(spec section 4.2): expand the 64-byte seed by tiling into a `mixBytes`
buffer, run `loopAccesses` rounds of lookup-and-FNV-combine, FNV-fold the
buffer to 32 bytes, and keccak-hash `seed ++ compressedMix` into the
digest.  The spec leaves the per-round index derivation underdetermined
("derive a pseudo-random row index from the current mix state and the
lookup-structure size"), so the canonical ethash (hashimoto) derivation is
used.  `rows` is the number of 128-byte row pairs in the lookup structure
and `lookup i` returns the `i`-th 64-byte row.  This definition follows the
spec's words, not the code; it is the reference point the code is compared
against. -/
def mixSpecDigest (headerHash : List Nat) (nonce : Nat) (rows : Nat)
    (lookup : Nat → List Nat) : List Nat :=
  let seed := Keccak512 (headerHash ++ le64 nonce)
  let seedHead := (words32 seed).getD 0 0
  let mix0 := words32 (seed ++ seed)
  let mixF := (List.range loopAccesses).foldl (mixRound rows lookup seedHead) mix0
  let cmix := (List.range (mixBytes / 16)).map fun i =>
    fnv (fnv (fnv (mixF.getD (4 * i) 0) (mixF.getD (4 * i + 1) 0))
      (mixF.getD (4 * i + 2) 0)) (mixF.getD (4 * i + 3) 0)
  Keccak256 (seed ++ bytesOfWords32 cmix)

/-- The all-zero lookup structure used for the concrete evaluation of
`mixSpecDigest`: every 64-byte row is zero. -/
def zeroLookup : Nat → List Nat := fun _ => List.replicate hashBytes 0

/-- The PoW modes of the engine (`ModeNormal`, `ModeShared`, `ModeTest`,
`ModeFake`, `ModeFullFake` in the source). -/
inductive Mode
  | normal
  | shared
  | test
  | fake
  | fullFake
deriving DecidableEq

/-- Embeds `Frkhash.Hashrate` as a function of the engine's mode, the local
meter reading (`hashrate.Rate1()`), and the remote sealer's observable
state: `none` when the sealer has exited (the `select` falls through to
`exitCh`, so the call does not hang), `some agg` when the sealer is running
and answers the `fetchRateCh` query with aggregate `agg`.  Rates are exact
rationals; the Go code uses float64, whose rounding is irrelevant to the
dispatch logic verified here.  The source short-circuits to the local meter
whenever the mode is neither `ModeNormal` nor `ModeTest`. -/
def Hashrate (mode : Mode) (localRate : ℚ) (remote : Option Nat) : ℚ :=
  if mode ≠ Mode.normal ∧ mode ≠ Mode.test then localRate
  else
    match remote with
    | none => localRate
    | some agg => localRate + agg

/-- The thread-management view of a `Frkhash` engine: its own `threads`
field together with the optional `shared` engine reference (`base` is an
engine whose `shared` pointer is nil). -/
inductive Frkhash
  | base (threads : Int)
  | withShared (threads : Int) (shared : Frkhash)

/-- Embeds `Frkhash.Threads`: returns the engine's own `threads` field
under the lock (it never consults the shared instance). -/
def Frkhash.Threads : Frkhash → Int
  | .base t => t
  | .withShared t _ => t

/-- Embeds `Frkhash.SetThreads`: under the lock, redirect to the shared
instance if one is configured, otherwise overwrite the `threads` field.
The subsequent non-blocking send on the `update` channel (`select` with a
`default` branch) either wakes an in-flight `Seal` or is dropped; it has no
effect on the engine state modelled here, so the call is a total
function. -/
def Frkhash.SetThreads : Frkhash → Int → Frkhash
  | .base _, n => .base n
  | .withShared t s, n => .withShared t (s.SetThreads n)

/-- The process-wide shared engine created by the package's `init`: a
normal-mode instance whose own `shared` pointer is nil and whose `threads`
field starts at the zero value. -/
def sharedFrkhash : Frkhash := .base 0

/-- Embeds `NewShared`: `&Frkhash{shared: sharedFrkhash}`, so the engine's
own `threads` field starts at the zero value 0. -/
def NewShared : Frkhash := .withShared 0 sharedFrkhash

/-- A work package as the spec's data model defines it: sealHash, seedHash,
256-bit target, and block number.  Hash values are abstracted to `Nat`. -/
structure WorkPackage where
  sealHash : Nat
  seedHash : Nat
  target : Nat
  blockNumber : Nat
deriving DecidableEq

/-- The header fields the remote sealer consumes: block number and
difficulty. -/
structure Header where
  number : Nat
  difficulty : Nat
deriving DecidableEq

/-- The two coordinator-facing errors (`errNoMiningWork` and
`errEthashStopped` in the source's tests). -/
inductive SealerError
  | errNoMiningWork
  | errEthashStopped
deriving DecidableEq

/-- Modelled from the spec: the Remote Coordinator's state (the sealer
source file is not among the provided sources; only its tests and callers
are).  Per spec section 4.4 the coordinator owns the current work package,
the set of still-solvable (possibly superseded) packages, a registry of
hash-rate entries `(minerID, rate, lastRefreshed)`, and its stopped flag. -/
structure remoteSealer where
  stopped : Bool
  currentPkg : Option WorkPackage
  works : List WorkPackage
  rates : List (Nat × Nat × Nat)
deriving DecidableEq

/-- Modelled from the spec: the coordinator state right after
`startRemoteSealer` — running, with no work ever pushed. -/
def startRemoteSealer : remoteSealer :=
  { stopped := false, currentPkg := none, works := [], rates := [] }

/-- Modelled from the spec: `pushWork(header)` computes
sealHash/target/blockNumber, makes the new package current (a package for
the same blockNumber is superseded but remains solvable until pruned, so it
stays in `works`), and fires best-effort notifications (no state effect).
The sealing hash is supplied by an external header-hashing collaborator,
abstracted as `sealHashFn`; likewise the seed hash.  The target is
`2^256 / difficulty`. -/
def pushWork (sealHashFn seedHashFn : Header → Nat) (s : remoteSealer)
    (h : Header) : remoteSealer :=
  if s.stopped then s
  else
    let wp : WorkPackage :=
      { sealHash := sealHashFn h, seedHash := seedHashFn h,
        target := 2 ^ 256 / h.difficulty, blockNumber := h.number }
    { s with currentPkg := some wp, works := wp :: s.works }

/-- Modelled from the spec: `currentWork()` returns the most recently
pushed package as `(sealHash, seedHash, target, blockNumber)`, fails with
`errEthashStopped` once the coordinator has exited, and with
`errNoMiningWork` when nothing has ever been pushed. -/
def currentWork (s : remoteSealer) : Except SealerError (Nat × Nat × Nat × Nat) :=
  if s.stopped then .error .errEthashStopped
  else
    match s.currentPkg with
    | none => .error .errNoMiningWork
    | some wp => .ok (wp.sealHash, wp.seedHash, wp.target, wp.blockNumber)

/-- Modelled from the spec: `submitWork(nonce, sealHash, mixDigest)` looks
up a still-solvable package matching `sealHash` (absent → false), re-checks
the solution with the engine's full verification (abstracted as the
`verify` predicate), and on success delivers the sealed block exactly once
and removes the package's solvable state, so a repeated submission for the
same sealHash finds nothing and returns false. -/
def submitWork (verify : Nat → Nat → WorkPackage → Bool) (s : remoteSealer)
    (nonce : Nat) (sealHash : Nat) (mixDigest : Nat) : remoteSealer × Bool :=
  if s.stopped then (s, false)
  else
    match s.works.find? (fun w => w.sealHash == sealHash) with
    | none => (s, false)
    | some wp =>
      if verify nonce mixDigest wp then
        ({ s with works := s.works.filter (fun w => w.sealHash != sealHash) }, true)
      else (s, false)

/-- Modelled from the spec: `submitHashrate(minerID, rate)` upserts the
entry with a refreshed timestamp and returns true, unless the coordinator
has stopped, in which case it returns false. -/
def submitHashrate (s : remoteSealer) (minerID rate now : Nat) :
    remoteSealer × Bool :=
  if s.stopped then (s, false)
  else ({ s with rates := (minerID, rate, now) :: s.rates.filter (fun e => e.1 != minerID) }, true)

/-- Modelled from the spec: `stop()` makes the coordinator's loop exit;
subsequent requests are answered with `errEthashStopped` / `false`. -/
def remoteSealer.stop (s : remoteSealer) : remoteSealer :=
  { s with stopped := true }

/-- The lifecycle view of a `Frkhash` engine: whether the `closeOnce` guard
has fired, the optional remote sealer, and a ghost counter of how many
times the teardown (closing `requestExit` and waiting on `exitCh`) has
executed — used to state the exactly-once property. -/
structure FrkhashLifecycle where
  closeOnceUsed : Bool
  remote : Option remoteSealer
  teardowns : Nat
deriving DecidableEq

/-- Embeds `Frkhash.Close`: `closeOnce.Do` runs the body at most once; the
body short-circuits when `remote` is nil, and otherwise closes the sealer's
`requestExit` channel and waits for `exitCh` (modelled as stopping the
sealer).  The method always returns a nil error. -/
def Close (e : FrkhashLifecycle) : FrkhashLifecycle × Option SealerError :=
  if e.closeOnceUsed then (e, none)
  else
    match e.remote with
    | none => ({ e with closeOnceUsed := true }, none)
    | some r =>
      ({ closeOnceUsed := true, remote := some r.stop, teardowns := e.teardowns + 1 }, none)

/-- A freshly created engine lifecycle fixture: not yet closed, holding a
freshly started remote sealer. -/
def freshEngine : FrkhashLifecycle :=
  { closeOnceUsed := false, remote := some startRemoteSealer, teardowns := 0 }

/-- The first header of the supersession scenario: block 1, difficulty 100. -/
def header1 : Header := { number := 1, difficulty := 100 }

/-- The second header of the supersession scenario: block 1, difficulty 1000. -/
def header2 : Header := { number := 1, difficulty := 1000 }

/-- A concrete sealing-hash collaborator for witnesses: headers of different
difficulty get different sealing hashes. -/
def sealHashFx : Header → Nat := fun h => h.difficulty

/-- A concrete seed-hash collaborator for witnesses. -/
def seedHashFx : Header → Nat := fun _ => 0

/-- A concrete verification predicate for witnesses that accepts every
solution. -/
def verifyFx : Nat → Nat → WorkPackage → Bool := fun _ _ _ => true

/-- The header hash of the repository's `TestFrankomoto` fixture. -/
def testHash : List Nat :=
  [201, 20, 156, 192, 56, 110, 104, 157, 120, 154, 28, 47, 61, 93, 22, 154,
   97, 166, 33, 142, 211, 14, 116, 65, 77, 199, 54, 228, 66, 239, 61, 31]

/-- The 64-byte `wantDigest` constant of `TestFrankomoto`. -/
def wantDigest : List Nat :=
  [131, 197, 8, 120, 139, 86, 183, 49, 3, 27, 76, 79, 77, 14, 122, 139, 77,
   102, 233, 240, 197, 187, 67, 106, 5, 244, 4, 252, 127, 15, 130, 54, 92,
   118, 54, 98, 24, 77, 87, 21, 126, 248, 92, 70, 114, 195, 166, 138, 205,
   111, 210, 227, 85, 51, 245, 90, 186, 161, 60, 35, 128, 35, 181, 6]

/-- The 32-byte `wantResult` constant of `TestFrankomoto`. -/
def wantResult : List Nat :=
  [116, 214, 146, 103, 89, 96, 39, 91, 5, 35, 220, 36, 139, 243, 213, 120,
   63, 19, 230, 236, 43, 192, 69, 166, 97, 221, 38, 65, 233, 94, 242, 226]

set_option maxRecDepth 400000 in
/-- Validation of the Keccak embedding against the repository's own test
vector: `Keccak512(testHash ++ LE64(0))` is exactly the test's
`wantDigest` and `Keccak256` of it is exactly `wantResult`. -/
theorem keccak_matches_test_vector :
    Keccak512 (testHash ++ le64 0) = wantDigest ∧
      Keccak256 wantDigest = wantResult := by
  constructor <;> decide

set_option maxRecDepth 4000 in
/-- A Keccak-512 digest is always 64 bytes: the output length is below the
rate, so the sponge squeezes once, and the serialized state always holds
200 bytes. -/
theorem Keccak512_length (msg : List Nat) : (Keccak512 msg).length = 64 := rfl

set_option maxRecDepth 4000 in
/-- A Keccak-256 digest is always 32 bytes. -/
theorem Keccak256_length (msg : List Nat) : (Keccak256 msg).length = 32 := rfl

/-- The 40-byte buffer `frankomoto` hashes is `hash[0..31] ++ LE64(nonce)`
whenever the supplied hash has at least 32 bytes: the `copy` fills the
first `min 40 |hash|` bytes and `PutUint64` overwrites bytes 32..39. -/
theorem frankomoto_buffer (hash : List Nat) (nonce : Nat) (h : 32 ≤ hash.length) :
    putUint64LE (goCopy (List.replicate 40 0) hash) 32 nonce =
      hash.take 32 ++ le64 nonce := by
  have key : ∀ l : List Nat, l.length = 40 → l.take 32 = hash.take 32 →
      putUint64LE l 32 nonce = hash.take 32 ++ le64 nonce := by
    intro l hl ht
    simp only [putUint64LE]
    rw [ht, List.drop_eq_nil_of_le (by omega), List.append_nil]
  apply key
  · simp only [goCopy, List.length_replicate, List.length_append,
      List.length_take, List.length_drop]
    omega
  · simp only [goCopy, List.length_replicate]
    rw [List.take_append_eq_append_take, List.take_take, List.length_take]
    have h1 : min 32 (min 40 hash.length) = 32 := by omega
    have h2 : 32 - min (min 40 hash.length) hash.length = 0 := by omega
    rw [h1, h2, List.take_zero, List.append_nil]

/-- C9 — `frankomoto` computes exactly the simplified two-hash pipeline:
for every hash of at least 32 bytes and every nonce, it returns
`(s[32..63], Keccak256(s))` with `s = Keccak512(hash[0..31] ++ LE64 nonce)`;
both components are exactly 32 bytes long, and the output depends only on
the first 32 bytes of the hash argument. -/
theorem frankomoto_simplified_pipeline (hash : List Nat) (nonce : Nat)
    (h : 32 ≤ hash.length) :
    frankomoto hash nonce =
      ((Keccak512 (hash.take 32 ++ le64 nonce)).drop 32,
        Keccak256 (Keccak512 (hash.take 32 ++ le64 nonce))) ∧
    (frankomoto hash nonce).1.length = 32 ∧
    (frankomoto hash nonce).2.length = 32 ∧
    frankomoto hash nonce = frankomoto (hash.take 32) nonce := by
  have hb := frankomoto_buffer hash nonce h
  have hb2 := frankomoto_buffer (hash.take 32) nonce (by rw [List.length_take]; omega)
  have htt : (hash.take 32).take 32 = hash.take 32 := by
    rw [List.take_take]
    norm_num
  refine ⟨?_, ?_, ?_, ?_⟩
  · simp only [frankomoto]
    rw [hb]
  · show ((Keccak512 (putUint64LE (goCopy (List.replicate 40 0) hash) 32 nonce)).drop
      32).length = 32
    rw [List.length_drop, Keccak512_length]
  · show (Keccak256 (Keccak512 (putUint64LE (goCopy (List.replicate 40 0) hash) 32
      nonce))).length = 32
    rw [Keccak256_length]
  · simp only [frankomoto]
    rw [hb, hb2, htt]

/-- Witness for C9 at the repository's test fixture. -/
theorem frankomoto_simplified_pipeline_witness :
    32 ≤ testHash.length ∧
      (frankomoto testHash 0 =
        ((Keccak512 (testHash.take 32 ++ le64 0)).drop 32,
          Keccak256 (Keccak512 (testHash.take 32 ++ le64 0))) ∧
      (frankomoto testHash 0).1.length = 32 ∧
      (frankomoto testHash 0).2.length = 32 ∧
      frankomoto testHash 0 = frankomoto (testHash.take 32) 0) :=
  ⟨by decide, frankomoto_simplified_pipeline testHash 0 (by decide)⟩

/-- C3 — the mix operation is deterministic: `frankomoto` is a pure
function of the pair (headerHash, nonce); its embedding reads no engine or
process state, so any two evaluations on equal inputs return identical
(digest, result) pairs. -/
theorem frankomoto_deterministic (h₁ h₂ : List Nat) (n₁ n₂ : Nat)
    (hh : h₁ = h₂) (hn : n₁ = n₂) :
    frankomoto h₁ n₁ = frankomoto h₂ n₂ := by
  rw [hh, hn]

/-- Witness for C3 at the repository's test fixture. -/
theorem frankomoto_deterministic_witness :
    testHash = testHash ∧ (0 : Nat) = 0 ∧
      frankomoto testHash 0 = frankomoto testHash 0 :=
  ⟨rfl, rfl, frankomoto_deterministic testHash testHash 0 0 rfl rfl⟩

/-- Stepwise evaluation of the spec's mixing loop at the test fixture:
each lemma evaluates one `mixRound` on an explicit mix state. -/
theorem mixRoundEval0 : mixRound 8 zeroLookup 2013840771 [2013840771, 834098827, 1330387715, 2340032077, 4041827917, 1782823877, 4228183045, 914493311, 1647736412, 358042904, 1180498046, 2326184818, 3822219213, 1526018901, 591176122, 112534400, 2013840771, 834098827, 1330387715, 2340032077, 4041827917, 1782823877, 4228183045, 914493311, 1647736412, 358042904, 1180498046, 2326184818, 3822219213, 1526018901, 591176122, 112534400] 0 = [2026827065, 3466411217, 3620636089, 3726934839, 2355890999, 228628255, 3234603999, 1304323309, 4156314324, 2960022728, 1113271898, 3062213750, 1900412855, 2231357135, 846370766, 254206592, 2026827065, 3466411217, 3620636089, 3726934839, 2355890999, 228628255, 3234603999, 1304323309, 4156314324, 2960022728, 1113271898, 3062213750, 1900412855, 2231357135, 846370766, 254206592] := by decide

theorem mixRoundEval1 : mixRound 8 zeroLookup 2013840771 [2026827065, 3466411217, 3620636089, 3726934839, 2355890999, 228628255, 3234603999, 1304323309, 4156314324, 2960022728, 1113271898, 3062213750, 1900412855, 2231357135, 846370766, 254206592, 2026827065, 3466411217, 3620636089, 3726934839, 2355890999, 228628255, 3234603999, 1304323309, 4156314324, 2960022728, 1113271898, 3062213750, 1900412855, 2231357135, 846370766, 254206592] 1 = [1723822267, 310820099, 1931248187, 3933900693, 1159047061, 2462967245, 1616672781, 1337516311, 3514196924, 2243694296, 3481925550, 3396238786, 137465109, 766676957, 946141514, 1513525120, 1723822267, 310820099, 1931248187, 3933900693, 1159047061, 2462967245, 1616672781, 1337516311, 3514196924, 2243694296, 3481925550, 3396238786, 137465109, 766676957, 946141514, 1513525120] := by decide

theorem mixRoundEval2 : mixRound 8 zeroLookup 2013840771 [1723822267, 310820099, 1931248187, 3933900693, 1159047061, 2462967245, 1616672781, 1337516311, 3514196924, 2243694296, 3481925550, 3396238786, 137465109, 766676957, 946141514, 1513525120, 1723822267, 310820099, 1931248187, 3933900693, 1159047061, 2462967245, 1616672781, 1337516311, 3514196924, 2243694296, 3481925550, 3396238786, 137465109, 766676957, 946141514, 1513525120] 2 = [2053011041, 756779961, 1893794529, 3018852239, 1444335503, 3877683639, 3197172855, 2534037301, 2036269300, 1594580488, 1680926442, 1844443238, 4211152911, 3440933095, 284454782, 2212750976, 2053011041, 756779961, 1893794529, 3018852239, 1444335503, 3877683639, 3197172855, 2534037301, 2036269300, 1594580488, 1680926442, 1844443238, 4211152911, 3440933095, 284454782, 2212750976] := by decide

theorem mixRoundEval3 : mixRound 8 zeroLookup 2013840771 [2053011041, 756779961, 1893794529, 3018852239, 1444335503, 3877683639, 3197172855, 2534037301, 2036269300, 1594580488, 1680926442, 1844443238, 4211152911, 3440933095, 284454782, 2212750976, 2053011041, 756779961, 1893794529, 3018852239, 1444335503, 3877683639, 3197172855, 2534037301, 2036269300, 1594580488, 1680926442, 1844443238, 4211152911, 3440933095, 284454782, 2212750976] 3 = [62151347, 3143431227, 2469890099, 3520849437, 350797341, 2408641301, 1966960469, 4198975599, 76447772, 2800027288, 2734391902, 1992558738, 834199453, 3297137573, 785089370, 532929408, 62151347, 3143431227, 2469890099, 3520849437, 350797341, 2408641301, 1966960469, 4198975599, 76447772, 2800027288, 2734391902, 1992558738, 834199453, 3297137573, 785089370, 532929408] := by decide

theorem mixRoundEval4 : mixRound 8 zeroLookup 2013840771 [62151347, 3143431227, 2469890099, 3520849437, 350797341, 2408641301, 1966960469, 4198975599, 76447772, 2800027288, 2734391902, 1992558738, 834199453, 3297137573, 785089370, 532929408, 62151347, 3143431227, 2469890099, 3520849437, 350797341, 2408641301, 1966960469, 4198975599, 76447772, 2800027288, 2734391902, 1992558738, 834199453, 3297137573, 785089370, 532929408] 4 = [2280310729, 777287905, 4083902537, 2049654695, 123946919, 372156943, 3837149903, 1832322749, 1213443092, 1384735048, 4025367034, 2291760598, 3808953383, 74820799, 73385646, 2169670272, 2280310729, 777287905, 4083902537, 2049654695, 123946919, 372156943, 3837149903, 1832322749, 1213443092, 1384735048, 4025367034, 2291760598, 3808953383, 74820799, 73385646, 2169670272] := by decide

theorem mixRoundEval5 : mixRound 8 zeroLookup 2013840771 [2280310729, 777287905, 4083902537, 2049654695, 123946919, 372156943, 3837149903, 1832322749, 1213443092, 1384735048, 4025367034, 2291760598, 3808953383, 74820799, 73385646, 2169670272, 2280310729, 777287905, 4083902537, 2049654695, 123946919, 372156943, 3837149903, 1832322749, 1213443092, 1384735048, 4025367034, 2291760598, 3808953383, 74820799, 73385646, 2169670272] 5 = [3214442859, 3489286707, 2064984811, 4178916325, 1212795877, 4202018205, 3656068061, 2862586759, 4021805948, 910435416, 2919580814, 3751876578, 2359200101, 3292459181, 2428879850, 351274880, 3214442859, 3489286707, 2064984811, 4178916325, 1212795877, 4202018205, 3656068061, 2862586759, 4021805948, 910435416, 2919580814, 3751876578, 2359200101, 3292459181, 2428879850, 351274880] := by decide

theorem mixRoundEval6 : mixRound 8 zeroLookup 2013840771 [3214442859, 3489286707, 2064984811, 4178916325, 1212795877, 4202018205, 3656068061, 2862586759, 4021805948, 910435416, 2919580814, 3751876578, 2359200101, 3292459181, 2428879850, 351274880, 3214442859, 3489286707, 2064984811, 4178916325, 1212795877, 4202018205, 3656068061, 2862586759, 4021805948, 910435416, 2919580814, 3751876578, 2359200101, 3292459181, 2428879850, 351274880] 6 = [135510897, 2583875145, 2907869169, 23114111, 2972449151, 3830244903, 3929410791, 541185413, 3665501236, 3309647496, 2152393610, 3969423558, 3264367103, 2618613847, 3511904606, 1977339520, 135510897, 2583875145, 2907869169, 23114111, 2972449151, 3830244903, 3929410791, 541185413, 3665501236, 3309647496, 2152393610, 3969423558, 3264367103, 2618613847, 3511904606, 1977339520] := by decide

theorem mixRoundEval7 : mixRound 8 zeroLookup 2013840771 [135510897, 2583875145, 2907869169, 23114111, 2972449151, 3830244903, 3929410791, 541185413, 3665501236, 3309647496, 2152393610, 3969423558, 3264367103, 2618613847, 3511904606, 1977339520, 135510897, 2583875145, 2907869169, 23114111, 2972449151, 3830244903, 3929410791, 541185413, 3665501236, 3309647496, 2152393610, 3969423558, 3264367103, 2618613847, 3511904606, 1977339520] 7 = [672142051, 3144334571, 3388512355, 2855758573, 1731838701, 2349748069, 2585153445, 1285759071, 600663516, 334813208, 2146486846, 976781234, 1263172717, 199043317, 3830374138, 151393152, 672142051, 3144334571, 3388512355, 2855758573, 1731838701, 2349748069, 2585153445, 1285759071, 600663516, 334813208, 2146486846, 976781234, 1263172717, 199043317, 3830374138, 151393152] := by decide

theorem mixRoundEval8 : mixRound 8 zeroLookup 2013840771 [672142051, 3144334571, 3388512355, 2855758573, 1731838701, 2349748069, 2585153445, 1285759071, 600663516, 334813208, 2146486846, 976781234, 1263172717, 199043317, 3830374138, 151393152, 672142051, 3144334571, 3388512355, 2855758573, 1731838701, 2349748069, 2585153445, 1285759071, 600663516, 334813208, 2146486846, 976781234, 1263172717, 199043317, 3830374138, 151393152] 8 = [4098734937, 4094125553, 1431823321, 3795669783, 1827527447, 3750165503, 908026047, 63698317, 945248596, 2188389832, 2785959834, 1492190518, 4081180567, 2720496047, 1646855054, 3029381760, 4098734937, 4094125553, 1431823321, 3795669783, 1827527447, 3750165503, 908026047, 63698317, 945248596, 2188389832, 2785959834, 1492190518, 4081180567, 2720496047, 1646855054, 3029381760] := by decide

theorem mixRoundEval9 : mixRound 8 zeroLookup 2013840771 [4098734937, 4094125553, 1431823321, 3795669783, 1827527447, 3750165503, 908026047, 63698317, 945248596, 2188389832, 2785959834, 1492190518, 4081180567, 2720496047, 1646855054, 3029381760, 4098734937, 4094125553, 1431823321, 3795669783, 1827527447, 3750165503, 908026047, 63698317, 945248596, 2188389832, 2785959834, 1492190518, 4081180567, 2720496047, 1646855054, 3029381760] 9 = [4015910171, 413497955, 844869275, 1032441141, 2440029493, 3766399597, 4066725037, 2266205431, 92380988, 513282520, 44072814, 963326978, 2276653749, 4079259261, 345020554, 3217620864, 4015910171, 413497955, 844869275, 1032441141, 2440029493, 3766399597, 4066725037, 2266205431, 92380988, 513282520, 44072814, 963326978, 2276653749, 4079259261, 345020554, 3217620864] := by decide

theorem mixRoundEval10 : mixRound 8 zeroLookup 2013840771 [4015910171, 413497955, 844869275, 1032441141, 2440029493, 3766399597, 4066725037, 2266205431, 92380988, 513282520, 44072814, 963326978, 2276653749, 4079259261, 345020554, 3217620864, 4015910171, 413497955, 844869275, 1032441141, 2440029493, 3766399597, 4066725037, 2266205431, 92380988, 513282520, 44072814, 963326978, 2276653749, 4079259261, 345020554, 3217620864] 10 = [3957080449, 796895705, 3780369921, 351144559, 673567343, 3564298647, 1115141207, 2596726997, 3876432756, 23336712, 2426968618, 1707269926, 1405135599, 1066159815, 3919585598, 1768568448, 3957080449, 796895705, 3780369921, 351144559, 673567343, 3564298647, 1115141207, 2596726997, 3876432756, 23336712, 2426968618, 1707269926, 1405135599, 1066159815, 3919585598, 1768568448] := by decide

theorem mixRoundEval11 : mixRound 8 zeroLookup 2013840771 [3957080449, 796895705, 3780369921, 351144559, 673567343, 3564298647, 1115141207, 2596726997, 3876432756, 23336712, 2426968618, 1707269926, 1405135599, 1066159815, 3919585598, 1768568448, 3957080449, 796895705, 3780369921, 351144559, 673567343, 3564298647, 1115141207, 2596726997, 3876432756, 23336712, 2426968618, 1707269926, 1405135599, 1066159815, 3919585598, 1768568448] 11 = [3434814995, 2667077787, 3087432595, 1639607485, 2726970557, 131670197, 4184925429, 2082506575, 780461980, 948978072, 3815419934, 1472547026, 3343717949, 3504341829, 85218458, 1915997056, 3434814995, 2667077787, 3087432595, 1639607485, 2726970557, 131670197, 4184925429, 2082506575, 780461980, 948978072, 3815419934, 1472547026, 3343717949, 3504341829, 85218458, 1915997056] := by decide

theorem mixRoundEval12 : mixRound 8 zeroLookup 2013840771 [3434814995, 2667077787, 3087432595, 1639607485, 2726970557, 131670197, 4184925429, 2082506575, 780461980, 948978072, 3815419934, 1472547026, 3343717949, 3504341829, 85218458, 1915997056, 3434814995, 2667077787, 3087432595, 1639607485, 2726970557, 131670197, 4184925429, 2082506575, 780461980, 948978072, 3815419934, 1472547026, 3343717949, 3504341829, 85218458, 1915997056] 12 = [1569740777, 3690992641, 1161070697, 2507746695, 2628400519, 265190639, 2713218479, 3056927069, 3610811028, 2736210504, 519257914, 4254179990, 4216979975, 363144607, 2566991470, 1200183936, 1569740777, 3690992641, 1161070697, 2507746695, 2628400519, 265190639, 2713218479, 3056927069, 3610811028, 2736210504, 519257914, 4254179990, 4216979975, 363144607, 2566991470, 1200183936] := by decide

theorem mixRoundEval13 : mixRound 8 zeroLookup 2013840771 [1569740777, 3690992641, 1161070697, 2507746695, 2628400519, 265190639, 2713218479, 3056927069, 3610811028, 2736210504, 519257914, 4254179990, 4216979975, 363144607, 2566991470, 1200183936, 1569740777, 3690992641, 1161070697, 2507746695, 2628400519, 265190639, 2713218479, 3056927069, 3610811028, 2736210504, 519257914, 4254179990, 4216979975, 363144607, 2566991470, 1200183936] 13 = [859464651, 1428127123, 1521663307, 3569527685, 653411205, 3507399741, 1146399357, 846275943, 1645958908, 94197592, 4075587662, 3259167266, 3048288517, 2985965901, 1255937834, 490305408, 859464651, 1428127123, 1521663307, 3569527685, 653411205, 3507399741, 1146399357, 846275943, 1645958908, 94197592, 4075587662, 3259167266, 3048288517, 2985965901, 1255937834, 490305408] := by decide

theorem mixRoundEval14 : mixRound 8 zeroLookup 2013840771 [859464651, 1428127123, 1521663307, 3569527685, 653411205, 3507399741, 1146399357, 846275943, 1645958908, 94197592, 4075587662, 3259167266, 3048288517, 2985965901, 1255937834, 490305408, 859464651, 1428127123, 1521663307, 3569527685, 653411205, 3507399741, 1146399357, 846275943, 1645958908, 94197592, 4075587662, 3259167266, 3048288517, 2985965901, 1255937834, 490305408] 14 = [1877678225, 2475863657, 308280593, 1936982623, 3563080287, 1461265415, 239624903, 3474841893, 1829367476, 783318920, 3092943562, 4049808262, 183511775, 2045260855, 41449246, 2172067456, 1877678225, 2475863657, 308280593, 1936982623, 3563080287, 1461265415, 239624903, 3474841893, 1829367476, 783318920, 3092943562, 4049808262, 183511775, 2045260855, 41449246, 2172067456] := by decide

theorem mixRoundEval15 : mixRound 8 zeroLookup 2013840771 [1877678225, 2475863657, 308280593, 1936982623, 3563080287, 1461265415, 239624903, 3474841893, 1829367476, 783318920, 3092943562, 4049808262, 183511775, 2045260855, 41449246, 2172067456, 1877678225, 2475863657, 308280593, 1936982623, 3563080287, 1461265415, 239624903, 3474841893, 1829367476, 783318920, 3092943562, 4049808262, 183511775, 2045260855, 41449246, 2172067456] 15 = [3222776899, 3102248779, 4263207363, 513784717, 2996114317, 596883205, 1123254085, 822701375, 1520616796, 131646232, 9769982, 2233304050, 387153165, 529150613, 27493434, 1317340032, 3222776899, 3102248779, 4263207363, 513784717, 2996114317, 596883205, 1123254085, 822701375, 1520616796, 131646232, 9769982, 2233304050, 387153165, 529150613, 27493434, 1317340032] := by decide

theorem mixRoundEval16 : mixRound 8 zeroLookup 2013840771 [3222776899, 3102248779, 4263207363, 513784717, 2996114317, 596883205, 1123254085, 822701375, 1520616796, 131646232, 9769982, 2233304050, 387153165, 529150613, 27493434, 1317340032, 3222776899, 3102248779, 4263207363, 513784717, 2996114317, 596883205, 1123254085, 822701375, 1520616796, 131646232, 9769982, 2233304050, 387153165, 529150613, 27493434, 1317340032] 16 = [2823040377, 1629066001, 3357206009, 3262398199, 2913847031, 109649119, 2857458079, 1893136941, 171749332, 1916477128, 3903748314, 2138486262, 1622006647, 999137423, 3462997838, 459571840, 2823040377, 1629066001, 3357206009, 3262398199, 2913847031, 109649119, 2857458079, 1893136941, 171749332, 1916477128, 3903748314, 2138486262, 1622006647, 999137423, 3462997838, 459571840] := by decide

theorem mixRoundEval17 : mixRound 8 zeroLookup 2013840771 [2823040377, 1629066001, 3357206009, 3262398199, 2913847031, 109649119, 2857458079, 1893136941, 171749332, 1916477128, 3903748314, 2138486262, 1622006647, 999137423, 3462997838, 459571840, 2823040377, 1629066001, 3357206009, 3262398199, 2913847031, 109649119, 2857458079, 1893136941, 171749332, 1916477128, 3903748314, 2138486262, 1622006647, 999137423, 3462997838, 459571840] 17 = [1548981627, 3963782083, 4216850171, 335486677, 1603286741, 685273869, 3171947853, 3479950551, 4052273852, 2601612504, 615005998, 2648732226, 2830138453, 1324597533, 1032380362, 2671341440, 1548981627, 3963782083, 4216850171, 335486677, 1603286741, 685273869, 3171947853, 3479950551, 4052273852, 2601612504, 615005998, 2648732226, 2830138453, 1324597533, 1032380362, 2671341440] := by decide

theorem mixRoundEval18 : mixRound 8 zeroLookup 2013840771 [1548981627, 3963782083, 4216850171, 335486677, 1603286741, 685273869, 3171947853, 3479950551, 4052273852, 2601612504, 615005998, 2648732226, 2830138453, 1324597533, 1032380362, 2671341440, 1548981627, 3963782083, 4216850171, 335486677, 1603286741, 685273869, 3171947853, 3479950551, 4052273852, 2601612504, 615005998, 2648732226, 2830138453, 1324597533, 1032380362, 2671341440] 18 = [3532935329, 2947902457, 2794650913, 1335724367, 1158041935, 1505566071, 3981543479, 1572867701, 4132906484, 4101697544, 3806033258, 3394493926, 3805526479, 1723400359, 2826455806, 661292672, 3532935329, 2947902457, 2794650913, 1335724367, 1158041935, 1505566071, 3981543479, 1572867701, 4132906484, 4101697544, 3806033258, 3394493926, 3805526479, 1723400359, 2826455806, 661292672] := by decide

theorem mixRoundEval19 : mixRound 8 zeroLookup 2013840771 [3532935329, 2947902457, 2794650913, 1335724367, 1158041935, 1505566071, 3981543479, 1572867701, 4132906484, 4101697544, 3806033258, 3394493926, 3805526479, 1723400359, 2826455806, 661292672, 3532935329, 2947902457, 2794650913, 1335724367, 1158041935, 1505566071, 3981543479, 1572867701, 4132906484, 4101697544, 3806033258, 3394493926, 3805526479, 1723400359, 2826455806, 661292672] 19 = [544927091, 2476275963, 1516534515, 2751407965, 4159831901, 3149226581, 3461967509, 173457967, 3207642908, 3850886296, 2306463198, 1745244434, 3796730077, 1547437797, 861801946, 2360458112, 544927091, 2476275963, 1516534515, 2751407965, 4159831901, 3149226581, 3461967509, 173457967, 3207642908, 3850886296, 2306463198, 1745244434, 3796730077, 1547437797, 861801946, 2360458112] := by decide

theorem mixRoundEval20 : mixRound 8 zeroLookup 2013840771 [544927091, 2476275963, 1516534515, 2751407965, 4159831901, 3149226581, 3461967509, 173457967, 3207642908, 3850886296, 2306463198, 1745244434, 3796730077, 1547437797, 861801946, 2360458112, 544927091, 2476275963, 1516534515, 2751407965, 4159831901, 3149226581, 3461967509, 173457967, 3207642908, 3850886296, 2306463198, 1745244434, 3796730077, 1547437797, 861801946, 2360458112] 20 = [2491665417, 1422914337, 1059949705, 2276128615, 2935291751, 3549023183, 1808340111, 1972613117, 364697876, 3974120264, 1221307514, 3555827542, 486661095, 394189439, 3071266350, 4224330368, 2491665417, 1422914337, 1059949705, 2276128615, 2935291751, 3549023183, 1808340111, 1972613117, 364697876, 3974120264, 1221307514, 3555827542, 486661095, 394189439, 3071266350, 4224330368] := by decide

theorem mixRoundEval21 : mixRound 8 zeroLookup 2013840771 [2491665417, 1422914337, 1059949705, 2276128615, 2935291751, 3549023183, 1808340111, 1972613117, 364697876, 3974120264, 1221307514, 3555827542, 486661095, 394189439, 3071266350, 4224330368, 2491665417, 1422914337, 1059949705, 2276128615, 2935291751, 3549023183, 1808340111, 1972613117, 364697876, 3974120264, 1221307514, 3555827542, 486661095, 394189439, 3071266350, 4224330368] 21 = [3564778027, 2757475571, 4256447403, 4179851045, 3534622501, 3505116893, 1015766301, 343804743, 1279900284, 755624536, 312509454, 4217230434, 2431462565, 2075260397, 1541509738, 3745572736, 3564778027, 2757475571, 4256447403, 4179851045, 3534622501, 3505116893, 1015766301, 343804743, 1279900284, 755624536, 312509454, 4217230434, 2431462565, 2075260397, 1541509738, 3745572736] := by decide

theorem mixRoundEval22 : mixRound 8 zeroLookup 2013840771 [3564778027, 2757475571, 4256447403, 4179851045, 3534622501, 3505116893, 1015766301, 343804743, 1279900284, 755624536, 312509454, 4217230434, 2431462565, 2075260397, 1541509738, 3745572736, 3564778027, 2757475571, 4256447403, 4179851045, 3534622501, 3505116893, 1015766301, 343804743, 1279900284, 755624536, 312509454, 4217230434, 2431462565, 2075260397, 1541509738, 3745572736] 22 = [2807888305, 2942988937, 230288945, 1473548095, 3439449919, 3225632231, 1818465447, 2305540293, 2484113716, 1050405000, 1622139402, 380982854, 3395110847, 2787517463, 236551390, 4079775360, 2807888305, 2942988937, 230288945, 1473548095, 3439449919, 3225632231, 1818465447, 2305540293, 2484113716, 1050405000, 1622139402, 380982854, 3395110847, 2787517463, 236551390, 4079775360] := by decide

theorem mixRoundEval23 : mixRound 8 zeroLookup 2013840771 [2807888305, 2942988937, 230288945, 1473548095, 3439449919, 3225632231, 1818465447, 2305540293, 2484113716, 1050405000, 1622139402, 380982854, 3395110847, 2787517463, 236551390, 4079775360, 2807888305, 2942988937, 230288945, 1473548095, 3439449919, 3225632231, 1818465447, 2305540293, 2484113716, 1050405000, 1622139402, 380982854, 3395110847, 2787517463, 236551390, 4079775360] 23 = [677188003, 2912046507, 3434215203, 2191360045, 4175812653, 2430235301, 1203962597, 429946399, 1242862812, 393154072, 1054922174, 91672626, 1339552173, 2768949301, 270504314, 1324479360, 677188003, 2912046507, 3434215203, 2191360045, 4175812653, 2430235301, 1203962597, 429946399, 1242862812, 393154072, 1054922174, 91672626, 1339552173, 2768949301, 270504314, 1324479360] := by decide

theorem mixRoundEval24 : mixRound 8 zeroLookup 2013840771 [677188003, 2912046507, 3434215203, 2191360045, 4175812653, 2430235301, 1203962597, 429946399, 1242862812, 393154072, 1054922174, 91672626, 1339552173, 2768949301, 270504314, 1324479360, 677188003, 2912046507, 3434215203, 2191360045, 4175812653, 2430235301, 1203962597, 429946399, 1242862812, 393154072, 1054922174, 91672626, 1339552173, 2768949301, 270504314, 1324479360] 24 = [763544473, 3897574449, 1596460057, 3404777175, 4275261143, 2900523455, 3707604607, 1989800653, 2053527124, 4224921544, 3119544858, 3423190710, 1576104791, 84263791, 3685876494, 3336721024, 763544473, 3897574449, 1596460057, 3404777175, 4275261143, 2900523455, 3707604607, 1989800653, 2053527124, 4224921544, 3119544858, 3423190710, 1576104791, 84263791, 3685876494, 3336721024] := by decide

theorem mixRoundEval25 : mixRound 8 zeroLookup 2013840771 [763544473, 3897574449, 1596460057, 3404777175, 4275261143, 2900523455, 3707604607, 1989800653, 2053527124, 4224921544, 3119544858, 3423190710, 1576104791, 84263791, 3685876494, 3336721024, 763544473, 3897574449, 1596460057, 3404777175, 4275261143, 2900523455, 3707604607, 1989800653, 2053527124, 4224921544, 3119544858, 3423190710, 1576104791, 84263791, 3685876494, 3336721024] 25 = [1037691355, 3881523491, 3842706267, 1342768245, 4255456373, 3884296109, 1646744045, 2170108087, 52028988, 896808920, 3482334958, 3914807426, 974688757, 1460840381, 3879390986, 2521292672, 1037691355, 3881523491, 3842706267, 1342768245, 4255456373, 3884296109, 1646744045, 2170108087, 52028988, 896808920, 3482334958, 3914807426, 974688757, 1460840381, 3879390986, 2521292672] := by decide

theorem mixRoundEval26 : mixRound 8 zeroLookup 2013840771 [1037691355, 3881523491, 3842706267, 1342768245, 4255456373, 3884296109, 1646744045, 2170108087, 52028988, 896808920, 3482334958, 3914807426, 974688757, 1460840381, 3879390986, 2521292672, 1037691355, 3881523491, 3842706267, 1342768245, 4255456373, 3884296109, 1646744045, 2170108087, 52028988, 896808920, 3482334958, 3914807426, 974688757, 1460840381, 3879390986, 2521292672] 26 = [957031361, 1473073689, 3949125697, 1932657711, 3219901487, 610727255, 1894119447, 1450461205, 499478644, 4260620552, 2919659690, 3595433126, 1772995759, 3479047815, 194243774, 321181312, 957031361, 1473073689, 3949125697, 1932657711, 3219901487, 610727255, 1894119447, 1450461205, 499478644, 4260620552, 2919659690, 3595433126, 1772995759, 3479047815, 194243774, 321181312] := by decide

theorem mixRoundEval27 : mixRound 8 zeroLookup 2013840771 [957031361, 1473073689, 3949125697, 1932657711, 3219901487, 610727255, 1894119447, 1450461205, 499478644, 4260620552, 2919659690, 3595433126, 1772995759, 3479047815, 194243774, 321181312, 957031361, 1473073689, 3949125697, 1932657711, 3219901487, 610727255, 1894119447, 1450461205, 499478644, 4260620552, 2919659690, 3595433126, 1772995759, 3479047815, 194243774, 321181312] 27 = [2374584531, 1362640219, 3450275411, 2260506109, 1328705021, 2769565685, 3506801717, 772634895, 1372587676, 3472349080, 2653942686, 45621586, 193765245, 4161855109, 4158500634, 2734533504, 2374584531, 1362640219, 3450275411, 2260506109, 1328705021, 2769565685, 3506801717, 772634895, 1372587676, 3472349080, 2653942686, 45621586, 193765245, 4161855109, 4158500634, 2734533504] := by decide

theorem mixRoundEval28 : mixRound 8 zeroLookup 2013840771 [2374584531, 1362640219, 3450275411, 2260506109, 1328705021, 2769565685, 3506801717, 772634895, 1372587676, 3472349080, 2653942686, 45621586, 193765245, 4161855109, 4158500634, 2734533504, 2374584531, 1362640219, 3450275411, 2260506109, 1328705021, 2769565685, 3506801717, 772634895, 1372587676, 3472349080, 2653942686, 45621586, 193765245, 4161855109, 4158500634, 2734533504] 28 = [2719851561, 914921025, 284095657, 400563527, 2841847111, 3553892015, 1086044015, 2385875613, 1719297940, 1747477576, 2742845882, 2581361686, 2875134407, 126765919, 1274717678, 357890688, 2719851561, 914921025, 284095657, 400563527, 2841847111, 3553892015, 1086044015, 2385875613, 1719297940, 1747477576, 2742845882, 2581361686, 2875134407, 126765919, 1274717678, 357890688] := by decide

theorem mixRoundEval29 : mixRound 8 zeroLookup 2013840771 [2719851561, 914921025, 284095657, 400563527, 2841847111, 3553892015, 1086044015, 2385875613, 1719297940, 1747477576, 2742845882, 2581361686, 2875134407, 126765919, 1274717678, 357890688, 2719851561, 914921025, 284095657, 400563527, 2841847111, 3553892015, 1086044015, 2385875613, 1719297940, 1747477576, 2742845882, 2581361686, 2875134407, 126765919, 1274717678, 357890688] 29 = [1571384459, 436504659, 1361782283, 3704493765, 3994267333, 635417981, 1451344829, 2069220647, 3870363132, 1066786136, 385890254, 1275772578, 2376662085, 1140893325, 2308126122, 348542848, 1571384459, 436504659, 1361782283, 3704493765, 3994267333, 635417981, 1451344829, 2069220647, 3870363132, 1066786136, 385890254, 1275772578, 2376662085, 1140893325, 2308126122, 348542848] := by decide

theorem mixRoundEval30 : mixRound 8 zeroLookup 2013840771 [1571384459, 436504659, 1361782283, 3704493765, 3994267333, 635417981, 1451344829, 2069220647, 3870363132, 1066786136, 385890254, 1275772578, 2376662085, 1140893325, 2308126122, 348542848, 1571384459, 436504659, 1361782283, 3704493765, 3994267333, 635417981, 1451344829, 2069220647, 3870363132, 1066786136, 385890254, 1275772578, 2376662085, 1140893325, 2308126122, 348542848] 30 = [4239777489, 1210227369, 3521962833, 1567479839, 2382110751, 472560583, 3947307655, 1326576741, 616104884, 1894478216, 56088906, 1458182406, 1174741151, 2584096759, 1019050654, 876330624, 4239777489, 1210227369, 3521962833, 1567479839, 2382110751, 472560583, 3947307655, 1326576741, 616104884, 1894478216, 56088906, 1458182406, 1174741151, 2584096759, 1019050654, 876330624] := by decide

theorem mixRoundEval31 : mixRound 8 zeroLookup 2013840771 [4239777489, 1210227369, 3521962833, 1567479839, 2382110751, 472560583, 3947307655, 1326576741, 616104884, 1894478216, 56088906, 1458182406, 1174741151, 2584096759, 1019050654, 876330624, 4239777489, 1210227369, 3521962833, 1567479839, 2382110751, 472560583, 3947307655, 1326576741, 616104884, 1894478216, 56088906, 1458182406, 1174741151, 2584096759, 1019050654, 876330624] 31 = [2739782403, 930707467, 3370768515, 854276301, 2733019341, 507052613, 3892009605, 3728980735, 2202063964, 1252243736, 2370506622, 3632620658, 3641858637, 1857913301, 1011353274, 3121406848, 2739782403, 930707467, 3370768515, 854276301, 2733019341, 507052613, 3892009605, 3728980735, 2202063964, 1252243736, 2370506622, 3632620658, 3641858637, 1857913301, 1011353274, 3121406848] := by decide

theorem mixRoundEval32 : mixRound 8 zeroLookup 2013840771 [2739782403, 930707467, 3370768515, 854276301, 2733019341, 507052613, 3892009605, 3728980735, 2202063964, 1252243736, 2370506622, 3632620658, 3641858637, 1857913301, 1011353274, 3121406848, 2739782403, 930707467, 3370768515, 854276301, 2733019341, 507052613, 3892009605, 3728980735, 2202063964, 1252243736, 2370506622, 3632620658, 3641858637, 1857913301, 1011353274, 3121406848] 32 = [376044985, 1597503825, 3407861305, 4115294903, 1039528631, 3636368031, 3048177503, 3818872685, 4212018388, 2545705160, 3945358170, 1274879862, 82061111, 693330511, 2674038478, 1649025664, 376044985, 1597503825, 3407861305, 4115294903, 1039528631, 3636368031, 3048177503, 3818872685, 4212018388, 2545705160, 3945358170, 1274879862, 82061111, 693330511, 2674038478, 1649025664] := by decide

theorem mixRoundEval33 : mixRound 8 zeroLookup 2013840771 [376044985, 1597503825, 3407861305, 4115294903, 1039528631, 3636368031, 3048177503, 3818872685, 4212018388, 2545705160, 3945358170, 1274879862, 82061111, 693330511, 2674038478, 1649025664, 376044985, 1597503825, 3407861305, 4115294903, 1039528631, 3636368031, 3048177503, 3818872685, 4212018388, 2545705160, 3945358170, 1274879862, 82061111, 693330511, 2674038478, 1649025664] 33 = [31091259, 907901571, 4229839803, 3676700181, 1093473813, 3540045901, 1648722573, 3236116631, 193130940, 2777438936, 2351392430, 360220354, 3928603541, 1564721757, 3056821834, 984895360, 31091259, 907901571, 4229839803, 3676700181, 1093473813, 3540045901, 1648722573, 3236116631, 193130940, 2777438936, 2351392430, 360220354, 3928603541, 1564721757, 3056821834, 984895360] := by decide

theorem mixRoundEval34 : mixRound 8 zeroLookup 2013840771 [31091259, 907901571, 4229839803, 3676700181, 1093473813, 3540045901, 1648722573, 3236116631, 193130940, 2777438936, 2351392430, 360220354, 3928603541, 1564721757, 3056821834, 984895360, 31091259, 907901571, 4229839803, 3676700181, 1093473813, 3540045901, 1648722573, 3236116631, 193130940, 2777438936, 2351392430, 360220354, 3928603541, 1564721757, 3056821834, 984895360] 34 = [634731233, 3009928249, 2660763489, 298777359, 2935603983, 2001201463, 1080853495, 1018303925, 3676474100, 1945305608, 1342612458, 2394694502, 884099983, 782956647, 485099134, 3923322496, 634731233, 3009928249, 2660763489, 298777359, 2935603983, 2001201463, 1080853495, 1018303925, 3676474100, 1945305608, 1342612458, 2394694502, 884099983, 782956647, 485099134, 3923322496] := by decide

theorem mixRoundEval35 : mixRound 8 zeroLookup 2013840771 [634731233, 3009928249, 2660763489, 298777359, 2935603983, 2001201463, 1080853495, 1018303925, 3676474100, 1945305608, 1342612458, 2394694502, 884099983, 782956647, 485099134, 3923322496, 634731233, 3009928249, 2660763489, 298777359, 2935603983, 2001201463, 1080853495, 1018303925, 3676474100, 1945305608, 1342612458, 2394694502, 884099983, 782956647, 485099134, 3923322496] 35 = [1873522739, 2776608187, 173252019, 399849629, 2184056989, 4248052117, 1641266645, 1096297455, 3948985884, 2408329880, 3832809822, 405518738, 2209149469, 3726969381, 40384602, 2698484608, 1873522739, 2776608187, 173252019, 399849629, 2184056989, 4248052117, 1641266645, 1096297455, 3948985884, 2408329880, 3832809822, 405518738, 2209149469, 3726969381, 40384602, 2698484608] := by decide

theorem mixRoundEval36 : mixRound 8 zeroLookup 2013840771 [1873522739, 2776608187, 173252019, 399849629, 2184056989, 4248052117, 1641266645, 1096297455, 3948985884, 2408329880, 3832809822, 405518738, 2209149469, 3726969381, 40384602, 2698484608, 1873522739, 2776608187, 173252019, 399849629, 2184056989, 4248052117, 1641266645, 1096297455, 3948985884, 2408329880, 3832809822, 405518738, 2209149469, 3726969381, 40384602, 2698484608] 36 = [4266025033, 1123974497, 4104208585, 564666151, 2340693799, 772857231, 3579041359, 3435997501, 2773173780, 2444469576, 11190010, 2664767702, 1715544999, 3645831231, 605074862, 3010054784, 4266025033, 1123974497, 4104208585, 564666151, 2340693799, 772857231, 3579041359, 3435997501, 2773173780, 2444469576, 11190010, 2664767702, 1715544999, 3645831231, 605074862, 3010054784] := by decide

theorem mixRoundEval37 : mixRound 8 zeroLookup 2013840771 [4266025033, 1123974497, 4104208585, 564666151, 2340693799, 772857231, 3579041359, 3435997501, 2773173780, 2444469576, 11190010, 2664767702, 1715544999, 3645831231, 605074862, 3010054784, 4266025033, 1123974497, 4104208585, 564666151, 2340693799, 772857231, 3579041359, 3435997501, 2773173780, 2444469576, 11190010, 2664767702, 1715544999, 3645831231, 605074862, 3010054784] 37 = [2445906667, 3617546163, 3805871211, 581503589, 3356074597, 327993373, 570056285, 2750933767, 1233080700, 2781687896, 113943438, 3749884130, 2676695013, 1448135469, 1951269098, 4018784128, 2445906667, 3617546163, 3805871211, 581503589, 3356074597, 327993373, 570056285, 2750933767, 1233080700, 2781687896, 113943438, 3749884130, 2676695013, 1448135469, 1951269098, 4018784128] := by decide

theorem mixRoundEval38 : mixRound 8 zeroLookup 2013840771 [2445906667, 3617546163, 3805871211, 581503589, 3356074597, 327993373, 570056285, 2750933767, 1233080700, 2781687896, 113943438, 3749884130, 2676695013, 1448135469, 1951269098, 4018784128, 2445906667, 3617546163, 3805871211, 581503589, 3356074597, 327993373, 570056285, 2750933767, 1233080700, 2781687896, 113943438, 3749884130, 2676695013, 1448135469, 1951269098, 4018784128] 38 = [1800554481, 585344713, 2257935473, 4112211199, 1277863167, 3818849703, 3659697255, 642186245, 795690548, 1510152840, 1056929930, 3166467014, 218314111, 238016471, 13332574, 2514816640, 1800554481, 585344713, 2257935473, 4112211199, 1277863167, 3818849703, 3659697255, 642186245, 795690548, 1510152840, 1056929930, 3166467014, 218314111, 238016471, 13332574, 2514816640] := by decide

theorem mixRoundEval39 : mixRound 8 zeroLookup 2013840771 [1800554481, 585344713, 2257935473, 4112211199, 1277863167, 3818849703, 3659697255, 642186245, 795690548, 1510152840, 1056929930, 3166467014, 218314111, 238016471, 13332574, 2514816640, 1800554481, 585344713, 2257935473, 4112211199, 1277863167, 3818849703, 3659697255, 642186245, 795690548, 1510152840, 1056929930, 3166467014, 218314111, 238016471, 13332574, 2514816640] 39 = [3817291875, 3042938475, 1310754275, 3641927021, 3860970861, 4199933413, 3412264485, 1186905055, 3708126172, 987939864, 3056255294, 3802808498, 4211947245, 743491445, 2655118330, 2006307712, 3817291875, 3042938475, 1310754275, 3641927021, 3860970861, 4199933413, 3412264485, 1186905055, 3708126172, 987939864, 3056255294, 3802808498, 4211947245, 743491445, 2655118330, 2006307712] := by decide

theorem mixRoundEval40 : mixRound 8 zeroLookup 2013840771 [3817291875, 3042938475, 1310754275, 3641927021, 3860970861, 4199933413, 3412264485, 1186905055, 3708126172, 987939864, 3056255294, 3802808498, 4211947245, 743491445, 2655118330, 2006307712, 3817291875, 3042938475, 1310754275, 3641927021, 3860970861, 4199933413, 3412264485, 1186905055, 3708126172, 987939864, 3056255294, 3802808498, 4211947245, 743491445, 2655118330, 2006307712] 40 = [2431278041, 4033688177, 3761423449, 646490775, 3021812375, 4198033279, 1373809727, 1027719181, 3417215828, 3405427144, 55456922, 2214844470, 583890711, 942275887, 465166990, 3235639936, 2431278041, 4033688177, 3761423449, 646490775, 3021812375, 4198033279, 1373809727, 1027719181, 3417215828, 3405427144, 55456922, 2214844470, 583890711, 942275887, 465166990, 3235639936] := by decide

theorem mixRoundEval41 : mixRound 8 zeroLookup 2013840771 [2431278041, 4033688177, 3761423449, 646490775, 3021812375, 4198033279, 1373809727, 1027719181, 3417215828, 3405427144, 55456922, 2214844470, 583890711, 942275887, 465166990, 3235639936, 2431278041, 4033688177, 3761423449, 646490775, 3021812375, 4198033279, 1373809727, 1027719181, 3417215828, 3405427144, 55456922, 2214844470, 583890711, 942275887, 465166990, 3235639936] 41 = [4193162907, 3974522851, 1223366683, 1076136885, 553034677, 1721003245, 651503405, 2072073335, 4157730108, 1353047512, 3457994350, 135093506, 3765598517, 2568589565, 866100618, 440319872, 4193162907, 3974522851, 1223366683, 1076136885, 553034677, 1721003245, 651503405, 2072073335, 4157730108, 1353047512, 3457994350, 135093506, 3765598517, 2568589565, 866100618, 440319872] := by decide

theorem mixRoundEval42 : mixRound 8 zeroLookup 2013840771 [4193162907, 3974522851, 1223366683, 1076136885, 553034677, 1721003245, 651503405, 2072073335, 4157730108, 1353047512, 3457994350, 135093506, 3765598517, 2568589565, 866100618, 440319872, 4193162907, 3974522851, 1223366683, 1076136885, 553034677, 1721003245, 651503405, 2072073335, 4157730108, 1353047512, 3457994350, 135093506, 3765598517, 2568589565, 866100618, 440319872] 42 = [228005377, 3518335577, 3843486337, 2928143855, 2571351535, 1755805975, 1317841879, 3818387285, 1534621044, 3441179400, 3847812906, 2936629798, 2301939311, 4144711, 3461453886, 3502732928, 228005377, 3518335577, 3843486337, 2928143855, 2571351535, 1755805975, 1317841879, 3818387285, 1534621044, 3441179400, 3847812906, 2936629798, 2301939311, 4144711, 3461453886, 3502732928] := by decide

theorem mixRoundEval43 : mixRound 8 zeroLookup 2013840771 [228005377, 3518335577, 3843486337, 2928143855, 2571351535, 1755805975, 1317841879, 3818387285, 1534621044, 3441179400, 3847812906, 2936629798, 2301939311, 4144711, 3461453886, 3502732928, 228005377, 3518335577, 3843486337, 2928143855, 2571351535, 1755805975, 1317841879, 3818387285, 1534621044, 3441179400, 3847812906, 2936629798, 2301939311, 4144711, 3461453886, 3502732928] 43 = [1708630931, 2043202075, 606060819, 2935721789, 882337597, 3601047349, 2121433973, 2637847247, 1923147164, 3950046616, 890050334, 2983336402, 1830877373, 2861500869, 141732250, 704613248, 1708630931, 2043202075, 606060819, 2935721789, 882337597, 3601047349, 2121433973, 2637847247, 1923147164, 3950046616, 890050334, 2983336402, 1830877373, 2861500869, 141732250, 704613248] := by decide

theorem mixRoundEval44 : mixRound 8 zeroLookup 2013840771 [1708630931, 2043202075, 606060819, 2935721789, 882337597, 3601047349, 2121433973, 2637847247, 1923147164, 3950046616, 890050334, 2983336402, 1830877373, 2861500869, 141732250, 704613248, 1708630931, 2043202075, 606060819, 2935721789, 882337597, 3601047349, 2121433973, 2637847247, 1923147164, 3950046616, 890050334, 2983336402, 1830877373, 2861500869, 141732250, 704613248] 44 = [3849748585, 3524667521, 4043108585, 3003284743, 123176199, 412328047, 2202333487, 1373434845, 256472212, 986056264, 2711315514, 3216942486, 2280100231, 1143759135, 3867213166, 2638781056, 3849748585, 3524667521, 4043108585, 3003284743, 123176199, 412328047, 2202333487, 1373434845, 256472212, 986056264, 2711315514, 3216942486, 2280100231, 1143759135, 3867213166, 2638781056] := by decide

theorem mixRoundEval45 : mixRound 8 zeroLookup 2013840771 [3849748585, 3524667521, 4043108585, 3003284743, 123176199, 412328047, 2202333487, 1373434845, 256472212, 986056264, 2711315514, 3216942486, 2280100231, 1143759135, 3867213166, 2638781056, 3849748585, 3524667521, 4043108585, 3003284743, 123176199, 412328047, 2202333487, 1373434845, 256472212, 986056264, 2711315514, 3216942486, 2280100231, 1143759135, 3867213166, 2638781056] 45 = [2727093579, 971096851, 1194278603, 3555381765, 2512808453, 526749373, 3565661437, 3151226087, 2762114300, 3451642712, 2711537486, 1864280866, 2022315909, 1893524429, 1259271210, 424359808, 2727093579, 971096851, 1194278603, 3555381765, 2512808453, 526749373, 3565661437, 3151226087, 2762114300, 3451642712, 2711537486, 1864280866, 2022315909, 1893524429, 1259271210, 424359808] := by decide

theorem mixRoundEval46 : mixRound 8 zeroLookup 2013840771 [2727093579, 971096851, 1194278603, 3555381765, 2512808453, 526749373, 3565661437, 3151226087, 2762114300, 3451642712, 2711537486, 1864280866, 2022315909, 1893524429, 1259271210, 424359808, 2727093579, 971096851, 1194278603, 3555381765, 2512808453, 526749373, 3565661437, 3151226087, 2762114300, 3451642712, 2711537486, 1864280866, 2022315909, 1893524429, 1259271210, 424359808] 46 = [765375761, 828774121, 3663714705, 2678627807, 3428378079, 702526343, 2392150599, 2509330341, 668424372, 919004040, 3136536522, 256337542, 1180894815, 2025495479, 1384799774, 1365794432, 765375761, 828774121, 3663714705, 2678627807, 3428378079, 702526343, 2392150599, 2509330341, 668424372, 919004040, 3136536522, 256337542, 1180894815, 2025495479, 1384799774, 1365794432] := by decide

theorem mixRoundEval47 : mixRound 8 zeroLookup 2013840771 [765375761, 828774121, 3663714705, 2678627807, 3428378079, 702526343, 2392150599, 2509330341, 668424372, 919004040, 3136536522, 256337542, 1180894815, 2025495479, 1384799774, 1365794432, 765375761, 828774121, 3663714705, 2678627807, 3428378079, 702526343, 2392150599, 2509330341, 668424372, 919004040, 3136536522, 256337542, 1180894815, 2025495479, 1384799774, 1365794432] 47 = [3788966339, 2897613003, 1440972611, 896566797, 2398215693, 1915198853, 3155199429, 416086207, 1811981148, 3273142040, 397863678, 2472961266, 753076109, 3301122325, 231876922, 2806825856, 3788966339, 2897613003, 1440972611, 896566797, 2398215693, 1915198853, 3155199429, 416086207, 1811981148, 3273142040, 397863678, 2472961266, 753076109, 3301122325, 231876922, 2806825856] := by decide

theorem mixRoundEval48 : mixRound 8 zeroLookup 2013840771 [3788966339, 2897613003, 1440972611, 896566797, 2398215693, 1915198853, 3155199429, 416086207, 1811981148, 3273142040, 397863678, 2472961266, 753076109, 3301122325, 231876922, 2806825856, 3788966339, 2897613003, 1440972611, 896566797, 2398215693, 1915198853, 3155199429, 416086207, 1811981148, 3273142040, 397863678, 2472961266, 753076109, 3301122325, 231876922, 2806825856] 48 = [1216634361, 2912710545, 2015450745, 757270135, 331386487, 962394207, 3540161823, 3383465133, 1627466196, 923935432, 1391717850, 4231063798, 912581367, 3559724047, 4225164878, 3721904768, 1216634361, 2912710545, 2015450745, 757270135, 331386487, 962394207, 3540161823, 3383465133, 1627466196, 923935432, 1391717850, 4231063798, 912581367, 3559724047, 4225164878, 3721904768] := by decide

theorem mixRoundEval49 : mixRound 8 zeroLookup 2013840771 [1216634361, 2912710545, 2015450745, 757270135, 331386487, 962394207, 3540161823, 3383465133, 1627466196, 923935432, 1391717850, 4231063798, 912581367, 3559724047, 4225164878, 3721904768, 1216634361, 2912710545, 2015450745, 757270135, 331386487, 962394207, 3540161823, 3383465133, 1627466196, 923935432, 1391717850, 4231063798, 912581367, 3559724047, 4225164878, 3721904768] 49 = [559935227, 3728974147, 2507874427, 2233675093, 2401256789, 2891644301, 1276166093, 639306839, 2295650492, 2039267544, 1879010862, 4143889218, 2547075797, 301372317, 3243019466, 3131518848, 559935227, 3728974147, 2507874427, 2233675093, 2401256789, 2891644301, 1276166093, 639306839, 2295650492, 2039267544, 1879010862, 4143889218, 2547075797, 301372317, 3243019466, 3131518848] := by decide

theorem mixRoundEval50 : mixRound 8 zeroLookup 2013840771 [559935227, 3728974147, 2507874427, 2233675093, 2401256789, 2891644301, 1276166093, 639306839, 2295650492, 2039267544, 1879010862, 4143889218, 2547075797, 301372317, 3243019466, 3131518848, 559935227, 3728974147, 2507874427, 2233675093, 2401256789, 2891644301, 1276166093, 639306839, 2295650492, 2039267544, 1879010862, 4143889218, 2547075797, 301372317, 3243019466, 3131518848] 50 = [2231711009, 662101113, 3419677089, 3948960975, 2764907727, 3762103543, 2338189239, 1402236149, 588328948, 814978056, 2098885226, 352372966, 3547909455, 3827982375, 360817150, 1429194368, 2231711009, 662101113, 3419677089, 3948960975, 2764907727, 3762103543, 2338189239, 1402236149, 588328948, 814978056, 2098885226, 352372966, 3547909455, 3827982375, 360817150, 1429194368] := by decide

theorem mixRoundEval51 : mixRound 8 zeroLookup 2013840771 [2231711009, 662101113, 3419677089, 3948960975, 2764907727, 3762103543, 2338189239, 1402236149, 588328948, 814978056, 2098885226, 352372966, 3547909455, 3827982375, 360817150, 1429194368, 2231711009, 662101113, 3419677089, 3948960975, 2764907727, 3762103543, 2338189239, 1402236149, 588328948, 814978056, 2098885226, 352372966, 3547909455, 3827982375, 360817150, 1429194368] 51 = [2285019891, 2568819323, 2146496627, 1471289821, 1039200733, 4148244693, 467688725, 2275902895, 672038172, 2152859800, 1520573662, 4131144210, 908800861, 1437949285, 3641836250, 2587196288, 2285019891, 2568819323, 2146496627, 1471289821, 1039200733, 4148244693, 467688725, 2275902895, 672038172, 2152859800, 1520573662, 4131144210, 908800861, 1437949285, 3641836250, 2587196288] := by decide

theorem mixRoundEval52 : mixRound 8 zeroLookup 2013840771 [2285019891, 2568819323, 2146496627, 1471289821, 1039200733, 4148244693, 467688725, 2275902895, 672038172, 2152859800, 1520573662, 4131144210, 908800861, 1437949285, 3641836250, 2587196288, 2285019891, 2568819323, 2146496627, 1471289821, 1039200733, 4148244693, 467688725, 2275902895, 672038172, 2152859800, 1520573662, 4131144210, 908800861, 1437949285, 3641836250, 2587196288] 52 = [1521910921, 2210666401, 3679094025, 3932075751, 1598865127, 278912847, 4147283983, 1001878141, 718205716, 2569242440, 2335404410, 3000762966, 2734807911, 1367475711, 2438626606, 1110534784, 1521910921, 2210666401, 3679094025, 3932075751, 1598865127, 278912847, 4147283983, 1001878141, 718205716, 2569242440, 2335404410, 3000762966, 2734807911, 1367475711, 2438626606, 1110534784] := by decide

theorem mixRoundEval53 : mixRound 8 zeroLookup 2013840771 [1521910921, 2210666401, 3679094025, 3932075751, 1598865127, 278912847, 4147283983, 1001878141, 718205716, 2569242440, 2335404410, 3000762966, 2734807911, 1367475711, 2438626606, 1110534784, 1521910921, 2210666401, 3679094025, 3932075751, 1598865127, 278912847, 4147283983, 1001878141, 718205716, 2569242440, 2335404410, 3000762966, 2734807911, 1367475711, 2438626606, 1110534784] 53 = [1448256427, 246493811, 1062169899, 3659132325, 3973088677, 2058127709, 864825245, 2127116999, 2009639036, 1525544536, 2616959758, 3864505698, 49046309, 1320120429, 4285730666, 3016402816, 1448256427, 246493811, 1062169899, 3659132325, 3973088677, 2058127709, 864825245, 2127116999, 2009639036, 1525544536, 2616959758, 3864505698, 49046309, 1320120429, 4285730666, 3016402816] := by decide

theorem mixRoundEval54 : mixRound 8 zeroLookup 2013840771 [1448256427, 246493811, 1062169899, 3659132325, 3973088677, 2058127709, 864825245, 2127116999, 2009639036, 1525544536, 2616959758, 3864505698, 49046309, 1320120429, 4285730666, 3016402816, 1448256427, 246493811, 1062169899, 3659132325, 3973088677, 2058127709, 864825245, 2127116999, 2009639036, 1525544536, 2616959758, 3864505698, 49046309, 1320120429, 4285730666, 3016402816] 54 = [2400691761, 2482137865, 3574127281, 4224785087, 1900176063, 2057059687, 3266245671, 1573357381, 216087348, 2090519688, 2602675978, 4261802310, 3206550335, 1261304727, 2350990302, 2282073728, 2400691761, 2482137865, 3574127281, 4224785087, 1900176063, 2057059687, 3266245671, 1573357381, 216087348, 2090519688, 2602675978, 4261802310, 3206550335, 1261304727, 2350990302, 2282073728] := by decide

theorem mixRoundEval55 : mixRound 8 zeroLookup 2013840771 [2400691761, 2482137865, 3574127281, 4224785087, 1900176063, 2057059687, 3266245671, 1573357381, 216087348, 2090519688, 2602675978, 4261802310, 3206550335, 1261304727, 2350990302, 2282073728, 2400691761, 2482137865, 3574127281, 4224785087, 1900176063, 2057059687, 3266245671, 1573357381, 216087348, 2090519688, 2602675978, 4261802310, 3206550335, 1261304727, 2350990302, 2282073728] 55 = [1933221667, 4020141867, 233850019, 690821805, 176255661, 1794418981, 2691324261, 3860459935, 2056270556, 2947545624, 1074171070, 693817650, 511593517, 4033023669, 1985861242, 2700194688, 1933221667, 4020141867, 233850019, 690821805, 176255661, 1794418981, 2691324261, 3860459935, 2056270556, 2947545624, 1074171070, 693817650, 511593517, 4033023669, 1985861242, 2700194688] := by decide

theorem mixRoundEval56 : mixRound 8 zeroLookup 2013840771 [1933221667, 4020141867, 233850019, 690821805, 176255661, 1794418981, 2691324261, 3860459935, 2056270556, 2947545624, 1074171070, 693817650, 511593517, 4033023669, 1985861242, 2700194688, 1933221667, 4020141867, 233850019, 690821805, 176255661, 1794418981, 2691324261, 3860459935, 2056270556, 2947545624, 1074171070, 693817650, 511593517, 4033023669, 1985861242, 2700194688] 56 = [2286453785, 1635922097, 2486963353, 2130771543, 919045719, 2217100607, 3966417407, 3654769997, 3439333460, 2852565960, 2286915354, 1274499510, 768731863, 552609519, 3484983822, 3699217024, 2286453785, 1635922097, 2486963353, 2130771543, 919045719, 2217100607, 3966417407, 3654769997, 3439333460, 2852565960, 2286915354, 1274499510, 768731863, 552609519, 3484983822, 3699217024] := by decide

theorem mixRoundEval57 : mixRound 8 zeroLookup 2013840771 [2286453785, 1635922097, 2486963353, 2130771543, 919045719, 2217100607, 3966417407, 3654769997, 3439333460, 2852565960, 2286915354, 1274499510, 768731863, 552609519, 3484983822, 3699217024, 2286453785, 1635922097, 2486963353, 2130771543, 919045719, 2217100607, 3966417407, 3654769997, 3439333460, 2852565960, 2286915354, 1274499510, 768731863, 552609519, 3484983822, 3699217024] 57 = [2737304411, 821208739, 4085765339, 1167090421, 2467855093, 1195311661, 721603693, 990371895, 186233916, 1888289752, 2940093934, 1280680322, 4168396917, 3373091389, 229055498, 2578292608, 2737304411, 821208739, 4085765339, 1167090421, 2467855093, 1195311661, 721603693, 990371895, 186233916, 1888289752, 2940093934, 1280680322, 4168396917, 3373091389, 229055498, 2578292608] := by decide

theorem mixRoundEval58 : mixRound 8 zeroLookup 2013840771 [2737304411, 821208739, 4085765339, 1167090421, 2467855093, 1195311661, 721603693, 990371895, 186233916, 1888289752, 2940093934, 1280680322, 4168396917, 3373091389, 229055498, 2578292608, 2737304411, 821208739, 4085765339, 1167090421, 2467855093, 1195311661, 721603693, 990371895, 186233916, 1888289752, 2940093934, 1280680322, 4168396917, 3373091389, 229055498, 2578292608] 58 = [853809217, 2969326233, 970200257, 2001455023, 2223607727, 1429236951, 577228695, 610662037, 3044457076, 100470024, 3439859114, 2899132326, 2494679087, 3169574407, 2282824638, 1817319040, 853809217, 2969326233, 970200257, 2001455023, 2223607727, 1429236951, 577228695, 610662037, 3044457076, 100470024, 3439859114, 2899132326, 2494679087, 3169574407, 2282824638, 1817319040] := by decide

theorem mixRoundEval59 : mixRound 8 zeroLookup 2013840771 [853809217, 2969326233, 970200257, 2001455023, 2223607727, 1429236951, 577228695, 610662037, 3044457076, 100470024, 3439859114, 2899132326, 2494679087, 3169574407, 2282824638, 1817319040, 853809217, 2969326233, 970200257, 2001455023, 2223607727, 1429236951, 577228695, 610662037, 3044457076, 100470024, 3439859114, 2899132326, 2494679087, 3169574407, 2282824638, 1817319040] 59 = [1578249811, 909510363, 3386682323, 2068535421, 1401761917, 4063975029, 3228289717, 3783470223, 501712028, 1968931736, 1840913054, 2904240722, 1121853949, 1850639621, 4042998810, 87649152, 1578249811, 909510363, 3386682323, 2068535421, 1401761917, 4063975029, 3228289717, 3783470223, 501712028, 1968931736, 1840913054, 2904240722, 1121853949, 1850639621, 4042998810, 87649152] := by decide

theorem mixRoundEval60 : mixRound 8 zeroLookup 2013840771 [1578249811, 909510363, 3386682323, 2068535421, 1401761917, 4063975029, 3228289717, 3783470223, 501712028, 1968931736, 1840913054, 2904240722, 1121853949, 1850639621, 4042998810, 87649152, 1578249811, 909510363, 3386682323, 2068535421, 1401761917, 4063975029, 3228289717, 3783470223, 501712028, 1968931736, 1840913054, 2904240722, 1121853949, 1850639621, 4042998810, 87649152] 60 = [1772022953, 839699137, 2573368617, 2493271239, 71521479, 3362331183, 2662341359, 2424251677, 2943730068, 1460676680, 1509418682, 3553638166, 1085243719, 2862311135, 1972122862, 3110353536, 1772022953, 839699137, 2573368617, 2493271239, 71521479, 3362331183, 2662341359, 2424251677, 2943730068, 1460676680, 1509418682, 3553638166, 1085243719, 2862311135, 1972122862, 3110353536] := by decide

theorem mixRoundEval61 : mixRound 8 zeroLookup 2013840771 [1772022953, 839699137, 2573368617, 2493271239, 71521479, 3362331183, 2662341359, 2424251677, 2943730068, 1460676680, 1509418682, 3553638166, 1085243719, 2862311135, 1972122862, 3110353536, 1772022953, 839699137, 2573368617, 2493271239, 71521479, 3362331183, 2662341359, 2424251677, 2943730068, 1460676680, 1509418682, 3553638166, 1085243719, 2862311135, 1972122862, 3110353536] 61 = [3996028427, 2334338515, 2668300171, 3104628037, 2097050949, 2893297661, 3191498301, 2502388903, 3395271676, 1450142040, 1530934990, 2261170082, 457736901, 1906503949, 4189541034, 1489508224, 3996028427, 2334338515, 2668300171, 3104628037, 2097050949, 2893297661, 3191498301, 2502388903, 3395271676, 1450142040, 1530934990, 2261170082, 457736901, 1906503949, 4189541034, 1489508224] := by decide

theorem mixRoundEval62 : mixRound 8 zeroLookup 2013840771 [3996028427, 2334338515, 2668300171, 3104628037, 2097050949, 2893297661, 3191498301, 2502388903, 3395271676, 1450142040, 1530934990, 2261170082, 457736901, 1906503949, 4189541034, 1489508224, 3996028427, 2334338515, 2668300171, 3104628037, 2097050949, 2893297661, 3191498301, 2502388903, 3395271676, 1450142040, 1530934990, 2261170082, 457736901, 1906503949, 4189541034, 1489508224] 62 = [4266236753, 3680576297, 3915177937, 2487243679, 160603039, 2012488519, 3002003975, 1947208421, 2427776436, 1768084872, 1947616842, 3436385286, 3089488927, 4035016567, 3315016094, 1123876480, 4266236753, 3680576297, 3915177937, 2487243679, 160603039, 2012488519, 3002003975, 1947208421, 2427776436, 1768084872, 1947616842, 3436385286, 3089488927, 4035016567, 3315016094, 1123876480] := by decide

theorem mixRoundEval63 : mixRound 8 zeroLookup 2013840771 [4266236753, 3680576297, 3915177937, 2487243679, 160603039, 2012488519, 3002003975, 1947208421, 2427776436, 1768084872, 1947616842, 3436385286, 3089488927, 4035016567, 3315016094, 1123876480, 4266236753, 3680576297, 3915177937, 2487243679, 160603039, 2012488519, 3002003975, 1947208421, 2427776436, 1768084872, 1947616842, 3436385286, 3089488927, 4035016567, 3315016094, 1123876480] 63 = [2665447555, 2196396427, 775181827, 4432717, 2966092621, 475236549, 3039232261, 2587960959, 2161259100, 1855333656, 152086142, 1984464242, 43615437, 315560021, 2867456954, 4098139008, 2665447555, 2196396427, 775181827, 4432717, 2966092621, 475236549, 3039232261, 2587960959, 2161259100, 1855333656, 152086142, 1984464242, 43615437, 315560021, 2867456954, 4098139008] := by decide

/-- The full 64-round mixing loop of the spec, evaluated at the test
fixture by chaining the per-round evaluations. -/
theorem mixLoopEval : (List.range loopAccesses).foldl
    (mixRound 8 zeroLookup 2013840771) [2013840771, 834098827, 1330387715, 2340032077, 4041827917, 1782823877, 4228183045, 914493311, 1647736412, 358042904, 1180498046, 2326184818, 3822219213, 1526018901, 591176122, 112534400, 2013840771, 834098827, 1330387715, 2340032077, 4041827917, 1782823877, 4228183045, 914493311, 1647736412, 358042904, 1180498046, 2326184818, 3822219213, 1526018901, 591176122, 112534400] = [2665447555, 2196396427, 775181827, 4432717, 2966092621, 475236549, 3039232261, 2587960959, 2161259100, 1855333656, 152086142, 1984464242, 43615437, 315560021, 2867456954, 4098139008, 2665447555, 2196396427, 775181827, 4432717, 2966092621, 475236549, 3039232261, 2587960959, 2161259100, 1855333656, 152086142, 1984464242, 43615437, 315560021, 2867456954, 4098139008] := by
  rw [show List.range loopAccesses = [0, 1, 2, 3, 4, 5, 6, 7, 8, 9, 10, 11, 12, 13, 14, 15, 16, 17, 18, 19, 20, 21, 22, 23, 24, 25, 26, 27, 28, 29, 30, 31, 32, 33, 34, 35, 36, 37, 38, 39, 40, 41, 42, 43, 44, 45, 46, 47, 48, 49, 50, 51, 52, 53, 54, 55, 56, 57, 58, 59, 60, 61, 62, 63] from by decide]
  rw [List.foldl_cons, mixRoundEval0, List.foldl_cons, mixRoundEval1, List.foldl_cons, mixRoundEval2, List.foldl_cons, mixRoundEval3, List.foldl_cons, mixRoundEval4, List.foldl_cons, mixRoundEval5, List.foldl_cons, mixRoundEval6, List.foldl_cons, mixRoundEval7, List.foldl_cons, mixRoundEval8, List.foldl_cons, mixRoundEval9, List.foldl_cons, mixRoundEval10, List.foldl_cons, mixRoundEval11, List.foldl_cons, mixRoundEval12, List.foldl_cons, mixRoundEval13, List.foldl_cons, mixRoundEval14, List.foldl_cons, mixRoundEval15, List.foldl_cons, mixRoundEval16, List.foldl_cons, mixRoundEval17, List.foldl_cons, mixRoundEval18, List.foldl_cons, mixRoundEval19, List.foldl_cons, mixRoundEval20, List.foldl_cons, mixRoundEval21, List.foldl_cons, mixRoundEval22, List.foldl_cons, mixRoundEval23, List.foldl_cons, mixRoundEval24, List.foldl_cons, mixRoundEval25, List.foldl_cons, mixRoundEval26, List.foldl_cons, mixRoundEval27, List.foldl_cons, mixRoundEval28, List.foldl_cons, mixRoundEval29, List.foldl_cons, mixRoundEval30, List.foldl_cons, mixRoundEval31, List.foldl_cons, mixRoundEval32, List.foldl_cons, mixRoundEval33, List.foldl_cons, mixRoundEval34, List.foldl_cons, mixRoundEval35, List.foldl_cons, mixRoundEval36, List.foldl_cons, mixRoundEval37, List.foldl_cons, mixRoundEval38, List.foldl_cons, mixRoundEval39, List.foldl_cons, mixRoundEval40, List.foldl_cons, mixRoundEval41, List.foldl_cons, mixRoundEval42, List.foldl_cons, mixRoundEval43, List.foldl_cons, mixRoundEval44, List.foldl_cons, mixRoundEval45, List.foldl_cons, mixRoundEval46, List.foldl_cons, mixRoundEval47, List.foldl_cons, mixRoundEval48, List.foldl_cons, mixRoundEval49, List.foldl_cons, mixRoundEval50, List.foldl_cons, mixRoundEval51, List.foldl_cons, mixRoundEval52, List.foldl_cons, mixRoundEval53, List.foldl_cons, mixRoundEval54, List.foldl_cons, mixRoundEval55, List.foldl_cons, mixRoundEval56, List.foldl_cons, mixRoundEval57, List.foldl_cons, mixRoundEval58, List.foldl_cons, mixRoundEval59, List.foldl_cons, mixRoundEval60, List.foldl_cons, mixRoundEval61, List.foldl_cons, mixRoundEval62, List.foldl_cons, mixRoundEval63, List.foldl_nil]

/-- The digest the spec's memory-hard algorithm produces at the test
fixture with the all-zero lookup structure of 8 row pairs. -/
theorem mixSpecDigestEval :
    mixSpecDigest testHash 0 8 zeroLookup = [34, 139, 250, 187, 94, 224, 187, 2, 171, 132, 17, 122, 133, 230, 251, 137, 137, 28, 32, 67, 240, 28, 233, 232, 33, 137, 176, 70, 253, 116, 235, 235] := by
  have hseed : Keccak512 (testHash ++ le64 0) = wantDigest :=
    keccak_matches_test_vector.1
  have hsh : (words32 wantDigest).getD 0 0 = 2013840771 := by decide
  have hmix0 : words32 (wantDigest ++ wantDigest) = [2013840771, 834098827, 1330387715, 2340032077, 4041827917, 1782823877, 4228183045, 914493311, 1647736412, 358042904, 1180498046, 2326184818, 3822219213, 1526018901, 591176122, 112534400, 2013840771, 834098827, 1330387715, 2340032077, 4041827917, 1782823877, 4228183045, 914493311, 1647736412, 358042904, 1180498046, 2326184818, 3822219213, 1526018901, 591176122, 112534400] := by decide
  simp only [mixSpecDigest]
  rw [hseed, hsh, hmix0, mixLoopEval]
  decide

/-- C1 counterexample: at the repository's own test input, with a lookup
structure of 8 all-zero 64-byte rows, the digest returned by `frankomoto`
differs from the digest produced by the memory-hard algorithm the spec
describes — the code performs no seed tiling, no lookup rounds, and no
FNV fold. -/
theorem frankomoto_ne_mixSpec :
    (frankomoto testHash 0).1 ≠ mixSpecDigest testHash 0 8 zeroLookup := by
  rw [mixSpecDigestEval]
  decide

/-- C1 amended: for every 32-byte headerHash and every nonce, the mix
operation computes its output by the simplified two-hash pipeline — it
Keccak-512-hashes headerHash concatenated with the little-endian nonce
into a 64-byte value `s`, returns bytes 32..63 of `s` as the digest and
`Keccak256(s)` as the result, performing no mix-buffer expansion, no
lookup accesses, and no FNV folding. -/
theorem frankomoto_no_memory_hard_loop (hash : List Nat) (nonce : Nat)
    (h : hash.length = 32) :
    frankomoto hash nonce =
      ((Keccak512 (hash ++ le64 nonce)).drop 32,
        Keccak256 (Keccak512 (hash ++ le64 nonce))) := by
  have hb := frankomoto_buffer hash nonce (by omega)
  have ht : hash.take 32 = hash := List.take_of_length_le (by omega)
  simp only [frankomoto]
  rw [hb, ht]

/-- Witness for the amended C1 at the repository's test fixture. -/
theorem frankomoto_no_memory_hard_loop_witness :
    testHash.length = 32 ∧
      frankomoto testHash 0 =
        ((Keccak512 (testHash ++ le64 0)).drop 32,
          Keccak256 (Keccak512 (testHash ++ le64 0))) :=
  ⟨by decide, frankomoto_no_memory_hard_loop testHash 0 (by decide)⟩

/-- C2 counterexample: in Shared mode the code short-circuits to the local
meter (the dispatch admits only `ModeNormal` and `ModeTest` to the remote
query), so with local rate 0 and a running coordinator reporting an
aggregate of 600 the result is not local + aggregate. -/
theorem Hashrate_shared_excludes_remote :
    Hashrate Mode.shared 0 (some 600) ≠ 0 + (600 : Nat) := by
  have hval : Hashrate Mode.shared 0 (some 600) = 0 := by
    simp [Hashrate]
  rw [hval]
  norm_num

/-- C2 amended: `Hashrate` returns the local meter plus the remote
aggregate exactly in Normal and Test modes; in Shared, Fake, and FullFake
modes it returns the local meter alone; and in every mode, if the remote
sealer has already exited the query immediately falls back to the
local-only value instead of hanging. -/
theorem Hashrate_dispatch (mode : Mode) (localRate : ℚ) (agg : Nat) :
    Hashrate mode localRate (some agg) =
      (if mode = Mode.normal ∨ mode = Mode.test then localRate + agg
        else localRate) ∧
    Hashrate mode localRate none = localRate := by
  cases mode <;> simp [Hashrate]

/-- C7 — `SetThreads` on an engine without a shared instance overwrites the
`threads` field (any integer, including zero and negatives), so a
subsequent `Threads` returns it; on an engine with a shared instance the
call is redirected to that instance.  The wake-up notification is a
non-blocking `select` with a `default` branch, so the modelled operation is
a total function of the engine state. -/
theorem SetThreads_updates_threads (n t : Int) (s : Frkhash) :
    ((Frkhash.base t).SetThreads n).Threads = n ∧
    (Frkhash.withShared t s).SetThreads n =
      Frkhash.withShared t (s.SetThreads n) :=
  ⟨rfl, rfl⟩

/-- C10 — frame property of shared-mode `SetThreads`: the engine's own
`threads` field is untouched when a shared instance is configured, and a
fresh `NewShared` engine reports 0 threads before and after any
`SetThreads` call on it. -/
theorem SetThreads_shared_frame (n t : Int) (s : Frkhash) :
    ((Frkhash.withShared t s).SetThreads n).Threads =
      (Frkhash.withShared t s).Threads ∧
    NewShared.Threads = 0 ∧
    (NewShared.SetThreads n).Threads = 0 :=
  ⟨rfl, rfl, rfl⟩

/-- C6 — empty state: on a coordinator on which no work has ever been
pushed (as right after `startRemoteSealer`), `currentWork`/`GetWork` fails
with `errNoMiningWork`. -/
theorem currentWork_no_work :
    currentWork startRemoteSealer = .error .errNoMiningWork ∧
    ∀ s : remoteSealer, s.stopped = false → s.currentPkg = none →
      currentWork s = .error .errNoMiningWork := by
  refine ⟨rfl, ?_⟩
  intro s h1 h2
  simp [currentWork, h1, h2]

/-- Witness for C6 at the freshly started coordinator. -/
theorem currentWork_no_work_witness :
    startRemoteSealer.stopped = false ∧ startRemoteSealer.currentPkg = none ∧
      currentWork startRemoteSealer = .error .errNoMiningWork :=
  ⟨rfl, rfl, currentWork_no_work.2 startRemoteSealer rfl rfl⟩

/-- C5 — post-stop behaviour: once `Close()` has completed on an engine
with a remote sealer, the sealer is stopped; every subsequent
`currentWork`/`GetWork` returns `errEthashStopped`, and every subsequent
`submitHashrate`/`SubmitHashrate` returns false (leaving the state
unchanged, so this persists across any further calls). -/
theorem closed_engine_rejects (e : FrkhashLifecycle) (r : remoteSealer)
    (h1 : e.closeOnceUsed = false) (h2 : e.remote = some r) :
    (Close e).1.remote = some r.stop ∧
    currentWork r.stop = .error .errEthashStopped ∧
    ∀ minerID rate now,
      submitHashrate r.stop minerID rate now = (r.stop, false) := by
  refine ⟨?_, ?_, ?_⟩
  · simp [Close, h1, h2]
  · simp [currentWork, remoteSealer.stop]
  · intro minerID rate now
    simp [submitHashrate, remoteSealer.stop]

/-- Witness for C5 on a concrete freshly created engine. -/
theorem closed_engine_rejects_witness :
    freshEngine.closeOnceUsed = false ∧
    freshEngine.remote = some startRemoteSealer ∧
    ((Close freshEngine).1.remote = some startRemoteSealer.stop ∧
      currentWork startRemoteSealer.stop = .error .errEthashStopped ∧
      ∀ minerID rate now,
        submitHashrate startRemoteSealer.stop minerID rate now =
          (startRemoteSealer.stop, false)) :=
  ⟨rfl, rfl, closed_engine_rejects freshEngine startRemoteSealer rfl rfl⟩

/-- C8 — `Close` is idempotent and returns a nil error on every call; the
second and every later call is a no-op leaving the state unchanged, and
starting from a not-yet-closed engine with a remote sealer the teardown
increments the ghost counter exactly once. -/
theorem Close_idempotent (e : FrkhashLifecycle) :
    (Close e).2 = none ∧
    Close (Close e).1 = ((Close e).1, none) ∧
    (∀ k, (fun s => (Close s).1)^[k] (Close e).1 = (Close e).1) ∧
    (∀ r, e.closeOnceUsed = false → e.remote = some r →
      (Close e).1.teardowns = e.teardowns + 1) := by
  have hfix : ∀ s : FrkhashLifecycle, s.closeOnceUsed = true →
      Close s = (s, none) := by
    intro s hs
    simp [Close, hs]
  have hclosed : (Close e).1.closeOnceUsed = true := by
    rcases hc : e.closeOnceUsed with _ | _
    · cases hr : e.remote <;> simp [Close, hc, hr]
    · rw [hfix e hc]
      exact hc
  have herr : (Close e).2 = none := by
    rcases hc : e.closeOnceUsed with _ | _
    · cases hr : e.remote <;> simp [Close, hc, hr]
    · rw [hfix e hc]
  refine ⟨herr, hfix _ hclosed, ?_, ?_⟩
  · intro k
    induction k with
    | zero => rfl
    | succ m ih =>
      rw [Function.iterate_succ_apply, show (Close (Close e).1).1 = (Close e).1 by
        rw [hfix _ hclosed]]
      exact ih
  · intro r hc hr
    simp [Close, hc, hr]

/-- C4 — supersession: pushing work for block 1 twice (difficulty 100 then
1000) leaves only the second package retrievable through `currentWork`,
yet a valid solution addressed by the first package's sealHash, submitted
before that package is pruned, still returns true — and exactly once: a
repeated submission for the same sealHash returns false. -/
theorem supersession (sealHashFn seedHashFn : Header → Nat)
    (verify : Nat → Nat → WorkPackage → Bool) (nonce md : Nat)
    (hdist : sealHashFn header2 ≠ sealHashFn header1)
    (hvalid : verify nonce md
      ⟨sealHashFn header1, seedHashFn header1, 2 ^ 256 / 100, 1⟩ = true) :
    currentWork (pushWork sealHashFn seedHashFn
        (pushWork sealHashFn seedHashFn startRemoteSealer header1) header2) =
      .ok (sealHashFn header2, seedHashFn header2, 2 ^ 256 / 1000, 1) ∧
    (submitWork verify (pushWork sealHashFn seedHashFn
        (pushWork sealHashFn seedHashFn startRemoteSealer header1) header2)
        nonce (sealHashFn header1) md).2 = true ∧
    (submitWork verify (submitWork verify (pushWork sealHashFn seedHashFn
        (pushWork sealHashFn seedHashFn startRemoteSealer header1) header2)
        nonce (sealHashFn header1) md).1 nonce (sealHashFn header1) md).2 =
      false := by
  have hne : (sealHashFn header2 == sealHashFn header1) = false :=
    beq_eq_false_iff_ne.mpr hdist
  have hself : (sealHashFn header1 == sealHashFn header1) = true :=
    beq_self_eq_true _
  have hwp1 : pushWork sealHashFn seedHashFn startRemoteSealer header1 =
      { stopped := false,
        currentPkg := some ⟨sealHashFn header1, seedHashFn header1,
          2 ^ 256 / 100, 1⟩,
        works := [⟨sealHashFn header1, seedHashFn header1, 2 ^ 256 / 100, 1⟩],
        rates := [] } := rfl
  have hwp2 : pushWork sealHashFn seedHashFn
      { stopped := false,
        currentPkg := some (⟨sealHashFn header1, seedHashFn header1,
          2 ^ 256 / 100, 1⟩ : WorkPackage),
        works := [⟨sealHashFn header1, seedHashFn header1, 2 ^ 256 / 100, 1⟩],
        rates := [] } header2 =
      { stopped := false,
        currentPkg := some ⟨sealHashFn header2, seedHashFn header2,
          2 ^ 256 / 1000, 1⟩,
        works := [⟨sealHashFn header2, seedHashFn header2, 2 ^ 256 / 1000, 1⟩,
          ⟨sealHashFn header1, seedHashFn header1, 2 ^ 256 / 100, 1⟩],
        rates := [] } := rfl
  have hvalid' := hvalid
  simp at hvalid'
  refine ⟨?_, ?_, ?_⟩
  · rw [hwp1, hwp2]
    rfl
  · rw [hwp1, hwp2]
    simp [submitWork, List.find?, hne, hself, hvalid']
  · rw [hwp1, hwp2]
    simp [submitWork, List.find?, List.filter, hne, hself, hvalid', bne]

/-- Witness for C4 with concrete collaborators: sealing hashes are the
headers' difficulties and verification accepts every solution. -/
theorem supersession_witness :
    sealHashFx header2 ≠ sealHashFx header1 ∧
    verifyFx 0 0 ⟨sealHashFx header1, seedHashFx header1,
      2 ^ 256 / 100, 1⟩ = true ∧
    (currentWork (pushWork sealHashFx seedHashFx
        (pushWork sealHashFx seedHashFx startRemoteSealer header1) header2) =
      .ok (sealHashFx header2, seedHashFx header2, 2 ^ 256 / 1000, 1) ∧
      (submitWork verifyFx (pushWork sealHashFx seedHashFx
        (pushWork sealHashFx seedHashFx startRemoteSealer header1) header2)
        0 (sealHashFx header1) 0).2 = true ∧
      (submitWork verifyFx (submitWork verifyFx (pushWork sealHashFx seedHashFx
        (pushWork sealHashFx seedHashFx startRemoteSealer header1) header2)
        0 (sealHashFx header1) 0).1 0 (sealHashFx header1) 0).2 = false) :=
  ⟨by decide, rfl,
    supersession sealHashFx seedHashFx verifyFx 0 0 (by decide) rfl⟩

/-- Witness for C8 on a concrete freshly created engine. -/
theorem Close_idempotent_witness :
    freshEngine.closeOnceUsed = false ∧
    freshEngine.remote = some startRemoteSealer ∧
    (Close freshEngine).1.teardowns = freshEngine.teardowns + 1 :=
  ⟨rfl, rfl, (Close_idempotent freshEngine).2.2.2 startRemoteSealer rfl rfl⟩

end Frkhash
